import Mathlib

/-!
# A verification development for the PSyIR core

This file gives a shallow embedding, in Lean 4, of the parts of the PSyIR
(the PSyclone intermediate representation) that the specification's testable
properties are about:

* the type system of `psyclone/psyir/symbols/datatypes.py`
  (`ScalarType`, `ArrayType` and their construction-time validation);
* the call-inlining transformation of
  `psyclone/psyir/transformations/inline_trans.py`
  (`InlineTrans.validate` and `InlineTrans.apply`);
* the task dependency-clause synthesis of
  `psyclone/psyir/nodes/dynamic_omp_task_directive.py`
  (`_create_binops_from_step_and_divisors`, `_handle_index_binop` and the
  per-index loop of `_evaluate_readonly_arrayref`);
* the module-information collaborator of `psyclone/parse/module_info.py`
  (`ModuleInfo.get_psyir` / `ModuleInfo.get_symbol`).

Python exceptions are modelled by an explicit error type and `Except`;
machine-level detail (object identity, reference cycles) is modelled by
names and positions, as the specification prescribes for a pure target.
Where the behaviour of a routine depends on code that is not part of the
inspected sources (for example `Reference.datatype` or `SymbolTable.lookup`),
the corresponding definition carries a doc comment starting
`Modelled from the spec:` and follows the specification's wording.
-/

set_option maxRecDepth 4096

namespace PsyIR

/-- The Python exception classes that the embedded code can raise.  Each
constructor carries the formatted message of the exception. -/
inductive PyErr where
  | typeError (msg : String)
  | valueError (msg : String)
  | notImplementedError (msg : String)
  | attributeError (msg : String)
  | transformationError (msg : String)
  | generationError (msg : String)
  | internalError (msg : String)
  | keyError (msg : String)
  | indexError (msg : String)
  | symbolError (msg : String)
  | fortranSyntaxError (msg : String)
  deriving DecidableEq, Repr

/-- `True` exactly on the `typeError` constructor (used to compare the class
of a raised exception against the class a claim expects). -/
def PyErr.isTypeError : PyErr → Bool
  | .typeError _ => true
  | _ => false

/-- `True` exactly on the `valueError` constructor. -/
def PyErr.isValueError : PyErr → Bool
  | .valueError _ => true
  | _ => false

/-- `True` exactly on the `generationError` constructor. -/
def PyErr.isGenerationError : PyErr → Bool
  | .generationError _ => true
  | _ => false

/-- `True` exactly on the `transformationError` constructor. -/
def PyErr.isTransformationError : PyErr → Bool
  | .transformationError _ => true
  | _ => false

/-- The message carried by an exception. -/
def PyErr.msg : PyErr → String
  | .typeError m => m
  | .valueError m => m
  | .notImplementedError m => m
  | .attributeError m => m
  | .transformationError m => m
  | .generationError m => m
  | .internalError m => m
  | .keyError m => m
  | .indexError m => m
  | .symbolError m => m
  | .fortranSyntaxError m => m

/-- Whether an `Except` computation finished without raising. -/
def exceptOk {ε α : Type} : Except ε α → Bool
  | .ok _ => true
  | .error _ => false

/-- The numeric value of a decimal digit character. -/
def pyCharDigit (c : Char) : Option Nat :=
  if '0' ≤ c ∧ c ≤ '9' then some (c.toNat - '0'.toNat) else none

/-- Accumulates the value of a run of decimal digits (`none` on a
non-digit). -/
def pyDigitsVal : List Char → Nat → Option Nat
  | [], acc => some acc
  | c :: cs, acc =>
      match pyCharDigit c with
      | some d => pyDigitsVal cs (acc * 10 + d)
      | none => none

/-- Python's `int(str)` on a decimal string: optional sign then digits,
`none` where Python raises `ValueError`.  (Defined here, rather than through
the library's string parsing, so that it evaluates by definitional
reduction.) -/
def parsePyInt (s : String) : Option Int :=
  match s.data with
  | [] => none
  | '-' :: cs =>
      if cs.isEmpty then none
      else (pyDigitsVal cs 0).map (fun n => -(n : Int))
  | '+' :: cs =>
      if cs.isEmpty then none
      else (pyDigitsVal cs 0).map (fun n => (n : Int))
  | cs => (pyDigitsVal cs 0).map (fun n => (n : Int))

/-- The character of a decimal digit. -/
def pyDigitChar (d : Nat) : Char := Char.ofNat (48 + d)

/-- Most-significant-first decimal digits of `n` (the fuel bounds the
recursion and always suffices at `n + 1`). -/
def pyNatDigitsAux : Nat → Nat → List Char
  | 0, _ => []
  | fuel + 1, n =>
      if n < 10 then [pyDigitChar n]
      else pyNatDigitsAux fuel (n / 10) ++ [pyDigitChar (n % 10)]

/-- Python's `str(int)` (equally the f-string rendering of an `int`).
(Defined here so that it evaluates by definitional reduction.) -/
def pyIntRepr : Int → String
  | .ofNat n => String.mk (pyNatDigitsAux (n + 1) n)
  | .negSucc m => String.mk ('-' :: pyNatDigitsAux (m + 2) (m + 1))

/-! ## The type system (`psyclone/psyir/symbols/datatypes.py`) -/

/-- `ScalarType.Intrinsic` (datatypes.py lines 235-243). -/
inductive Intrinsic where
  | INTEGER
  | REAL
  | BOOLEAN
  | CHARACTER
  deriving DecidableEq, Repr

/-- `ScalarType.Precision` (datatypes.py lines 245-252). -/
inductive PrecisionE where
  | SINGLE
  | DOUBLE
  | UNDEFINED
  deriving DecidableEq, Repr

/-- `ArrayType.Extent` (datatypes.py lines 352-362). -/
inductive Extent where
  | DEFERRED
  | ATTRIBUTE
  deriving DecidableEq, Repr

/-- The printable name of an `Extent`, as used in error messages. -/
def Extent.pname : Extent → String
  | .DEFERRED => "DEFERRED"
  | .ATTRIBUTE => "ATTRIBUTE"

/-- The value stored in a `ScalarType`'s `_precision` slot after successful
construction: one of the `Precision` enumerators, a positive byte count, or
a `DataSymbol`.  A stored `DataSymbol` is kept by name here (in the source a
symbol is a shared mutable object; the pure embedding tracks its name). -/
inductive Precision where
  | enum (p : PrecisionE)
  | val (n : Int)
  | sym (name : String)
  deriving DecidableEq, Repr

mutual
/-- A PSyIR data type (the `DataType` class hierarchy of datatypes.py).
`unknownFortranTy` keeps the captured declaration text; `structureTy` keeps
the ordered component list (visibility omitted — no embedded routine reads
it).  `arrayTy` stores the element (`_datatype`) and the validated shape
(`_shape`); the `_intrinsic`/`_precision` slots that `ArrayType.__init__`
derives from the element are recomputed by `arrayIntrinsic`/`arrayPrecision`
below, which perform exactly the derivation of lines 388-403. -/
inductive DataType where
  | scalarTy (intrinsic : Intrinsic) (precision : Precision)
  | deferredTy
  | noTy
  | unknownFortranTy (declaration : String)
  | structureTy (comps : List StructComp)
  | arrayTy (datatypeElem : ArrayElem) (shape : List ShapeDim)

/-- One component of a `StructureType`. -/
inductive StructComp where
  | mk (name : String) (datatype : DataType)

/-- The element of an `ArrayType`: either a `DataType` or a
`DataTypeSymbol` (kept by name). -/
inductive ArrayElem where
  | dt (t : DataType)
  | dtSymbol (name : String)

/-- One entry of a validated `ArrayType` shape: either an `Extent`
enumerator or an `ArrayBounds(lower, upper)` pair (datatypes.py lines
364-365 and 414-426).  A bound produced from a tuple whose member was an
`Extent` keeps that `Extent` (the `_node_from_int` helper leaves non-int
members unchanged). -/
inductive ShapeDim where
  | extentDim (e : Extent)
  | bounds (lo hi : BoundVal)

/-- A single bound inside an `ArrayBounds` pair. -/
inductive BoundVal where
  | node (d : DataNodeM)
  | extentB (e : Extent)

/-- The `DataNode`s that can appear in a shape: a `Literal` (value text and
type), a `Reference` (symbol name and the symbol's data type), or some other
expression node (kept as descriptive text; no embedded check inspects it
beyond its being a `DataNode`). -/
inductive DataNodeM where
  | litNode (value : String) (datatype : DataType)
  | refNode (symName : String) (symDatatype : DataType)
  | otherNode (desc : String)
end

/-- `INTEGER_TYPE` (datatypes.py line 790). -/
def INTEGER_TYPE : DataType := .scalarTy .INTEGER (.enum .UNDEFINED)

/-- `REAL_TYPE` (datatypes.py line 782). -/
def REAL_TYPE : DataType := .scalarTy .REAL (.enum .UNDEFINED)

/-- A `DataSymbol` as used while validating a precision argument: its name
and its declared data type. -/
structure DataSymbolM where
  name : String
  datatype : DataType

/-- The run-time Python value passed as the `precision` argument of
`ScalarType.__init__`: one of the `Precision` enumerators, an `int`, a
`DataSymbol`, or a value of any other Python type (carried by the name of
that type, which is all the `isinstance` checks inspect). -/
inductive PrecArg where
  | enum (p : PrecisionE)
  | int (n : Int)
  | symbol (s : DataSymbolM)
  | badType (tyName : String)

/-- A short rendering of a data type, standing in for Python's `str()` in
the error messages the embedded constructors format. -/
def DataType.shortName : DataType → String
  | .scalarTy _ _ => "Scalar"
  | .deferredTy => "DeferredType"
  | .noTy => "NoType"
  | .unknownFortranTy d => "UnknownFortranType('" ++ d ++ "')"
  | .structureTy _ => "StructureType<>"
  | .arrayTy _ _ => "Array"

/-- `ScalarType.__init__` (datatypes.py lines 254-280).  Checks the
`precision` argument: a wrong Python type raises `TypeError`; an `int`
that is `<= 0` raises `ValueError`; a `DataSymbol` whose own type is
neither a scalar-integer `ScalarType` nor `DeferredType` raises
`ValueError`.  On success the constructed `ScalarType` is returned
(the `intrinsic`-argument type check of lines 255-259 is discharged by
the Lean type of the argument). -/
def scalarType_new (intrinsic : Intrinsic) (precision : PrecArg) :
    Except PyErr DataType :=
  match precision with
  | .badType tyName =>
      .error (.typeError
        ("ScalarType expected 'precision' argument to be of type int, " ++
         "ScalarType.Precision or DataSymbol, but found '" ++ tyName ++ "'."))
  | .int n =>
      if n ≤ 0 then
        .error (.valueError
          ("The precision of a DataSymbol when specified as an integer " ++
           "number of bytes must be > 0 but found '" ++ pyIntRepr n ++ "'."))
      else
        .ok (.scalarTy intrinsic (.val n))
  | .enum p => .ok (.scalarTy intrinsic (.enum p))
  | .symbol s =>
      match s.datatype with
      | .scalarTy .INTEGER _ => .ok (.scalarTy intrinsic (.sym s.name))
      | .deferredTy => .ok (.scalarTy intrinsic (.sym s.name))
      | other =>
          .error (.valueError
            ("A DataSymbol representing the precision of another DataSymbol " ++
             "must be of either 'deferred' or scalar, integer type but got: " ++
             other.shortName))

end PsyIR

namespace PsyIR

/-- The value of the `_intrinsic` slot of an `ArrayType` (datatypes.py lines
395-403): the element's `Intrinsic` enumerator, or — when the element is an
`UnknownType` — that type object itself, or — when the element is a
`DataTypeSymbol` — that symbol. -/
inductive ArrayIntr where
  | intr (i : Intrinsic)
  | tyObj (t : DataType)
  | tySym (name : String)

mutual
/-- The value of `X.intrinsic` for a data type `X` (`none` models a Python
`AttributeError`: only `ScalarType` and `ArrayType` define the property). -/
def dtIntrinsic : DataType → Option ArrayIntr
  | .scalarTy i _ => some (.intr i)
  | .arrayTy elem _ => arrayElemIntrinsic elem
  | _ => none

/-- The `_intrinsic` slot `ArrayType.__init__` derives from its `datatype`
argument (lines 388-403); `none` models the `AttributeError` raised when the
element type has no `intrinsic` attribute (e.g. `DeferredType`). -/
def arrayElemIntrinsic : ArrayElem → Option ArrayIntr
  | .dt (.unknownFortranTy d) => some (.tyObj (.unknownFortranTy d))
  | .dt t => dtIntrinsic t
  | .dtSymbol n => some (.tySym n)
end

mutual
/-- The value of `X.precision` for a data type `X` (outer `none` models
`AttributeError`; an inner `none` is Python's `None`). -/
def dtPrecision : DataType → Option (Option Precision)
  | .scalarTy _ p => some (some p)
  | .arrayTy elem _ => some (arrayElemPrecision elem)
  | _ => none

/-- The `_precision` slot `ArrayType.__init__` derives from its `datatype`
argument (lines 395-403): `None` for `UnknownType` and `DataTypeSymbol`
elements, the element's own precision otherwise. -/
def arrayElemPrecision : ArrayElem → Option Precision
  | .dt (.unknownFortranTy _) => none
  | .dt t => (dtPrecision t).getD none
  | .dtSymbol _ => none
end

/-- The run-time Python value of one member of a 2-tuple supplied in an
`ArrayType` shape list: an `int`, a `DataNode`, an `ArrayType.Extent`, or a
value of any other Python type. -/
inductive BoundArg where
  | int (n : Int)
  | node (d : DataNodeM)
  | extentA (e : Extent)
  | badType (tyName : String)

/-- The run-time Python value of one entry of the `shape` argument of
`ArrayType.__init__`: an `int`, a `DataNode`, an `ArrayType.Extent`, a
2-tuple, a tuple of some other length, or a value of any other type. -/
inductive ShapeArg where
  | int (n : Int)
  | node (d : DataNodeM)
  | extentA (e : Extent)
  | pair2 (lo hi : BoundArg)
  | tupleN (len : Nat)
  | badType (tyName : String)

/-- A short rendering of a shape-list entry for error messages. -/
def ShapeArg.pname : ShapeArg → String
  | .int n => pyIntRepr n
  | .node _ => "<DataNode>"
  | .extentA e => "ArrayType.Extent." ++ e.pname
  | .pair2 _ _ => "<2-tuple>"
  | .tupleN n => "<" ++ pyIntRepr n ++ "-tuple>"
  | .badType t => "<" ++ t ++ ">"

/-- A rendering of the whole shape list for error messages (Python formats
the list with `{extents}`). -/
def shapeArgsText (extents : List ShapeArg) : String :=
  "[" ++ String.intercalate ", " (extents.map ShapeArg.pname) ++ "]"

/-- `_validate_data_node` (datatypes.py lines 504-560).  An `int` is always
valid; a `Reference` must have a scalar datatype that is an integer or of
Unknown/Deferred type; an `Extent` is invalid as a lower bound; any other
`DataNode` is valid; anything else raises `TypeError`.

The `dim_node.datatype` read on a `Reference` is modelled from the spec
(the `Reference.datatype` property is not part of the inspected sources):
a plain reference has the declared type of the symbol it resolves to, which
the `refNode` constructor carries.  A datatype with no `intrinsic` attribute
at line 536 (`NoType`, `StructureType`) raises `AttributeError`, exactly as
the attribute access would in Python. -/
def validate_data_node (dimNode : BoundArg) (isLowerBound : Bool) :
    Except PyErr Unit :=
  match dimNode with
  | .int _ => .ok ()
  | .node (.refNode nm dtype) =>
      match dtype with
      | .arrayTy elem shape =>
          if !shape.isEmpty then
            .error (.typeError
              ("If a DataSymbol is referenced in a dimension declaration " ++
               "then it should be a scalar but '" ++ nm ++ "' is not."))
          else
            -- an empty-shape ArrayType falls through to the intrinsic check;
            -- its `intrinsic` is never the INTEGER enumerator.
            .error (.typeError
              ("If a DataSymbol is referenced in a dimension declaration " ++
               "then it should be an integer or of UnknownType or " ++
               "DeferredType, but '" ++ nm ++ "' is a '" ++
               (DataType.arrayTy elem shape).shortName ++ "'."))
      | .unknownFortranTy _ => .ok ()
      | .deferredTy => .ok ()
      | .scalarTy i _ =>
          if i = .INTEGER then .ok ()
          else
            .error (.typeError
              ("If a DataSymbol is referenced in a dimension declaration " ++
               "then it should be an integer or of UnknownType or " ++
               "DeferredType, but '" ++ nm ++ "' is a '" ++
               dtype.shortName ++ "'."))
      | .noTy =>
          .error (.attributeError "'NoType' object has no attribute 'intrinsic'")
      | .structureTy _ =>
          .error (.attributeError
            "'StructureType' object has no attribute 'intrinsic'")
  | .extentA _ =>
      if isLowerBound then
        .error (.typeError
          ("If present, the lower bound in an ArrayType 'shape' must " ++
           "represent a value but found ArrayType.Extent"))
      else .ok ()
  | .node _ => .ok ()
  | .badType tyName =>
      .error (.typeError
        ("ArrayType shape-list elements can only be 'int', ArrayType.Extent," ++
         " 'DataNode' or a 2-tuple thereof but found '" ++ tyName ++ "'."))

/-- The per-entry loop of `_validate_shape` (datatypes.py lines 568-578):
a tuple entry must have exactly two members, whose members are then checked
as lower/upper bound; any other entry is checked directly. -/
def validateShapeEntries : List ShapeArg → Except PyErr Unit
  | [] => .ok ()
  | dimension :: rest => do
      match dimension with
      | .pair2 lo hi =>
          validate_data_node lo true
          validate_data_node hi false
      | .tupleN n =>
          .error (.typeError
            ("An ArrayType shape-list element specifying lower and upper " ++
             "bounds must be a 2-tuple but '" ++ ShapeArg.pname (.tupleN n) ++
             "' has " ++ pyIntRepr n ++ " entries."))
      | .int n => validate_data_node (.int n) false
      | .node d => validate_data_node (.node d) false
      | .extentA e => validate_data_node (.extentA e) false
      | .badType t => validate_data_node (.badType t) false
      validateShapeEntries rest

/-- `dim == ArrayType.Extent.DEFERRED` for a shape-list entry (only the
enumerator itself compares equal to it in Python). -/
def ShapeArg.isDeferred : ShapeArg → Bool
  | .extentA .DEFERRED => true
  | _ => false

/-- `dim == ArrayType.Extent.ATTRIBUTE` for a shape-list entry. -/
def ShapeArg.isAttribute : ShapeArg → Bool
  | .extentA .ATTRIBUTE => true
  | _ => false

/-- The per-dimension admissibility test of the assumed-shape rule
(datatypes.py lines 591-594): the entry is the `ATTRIBUTE` enumerator, or a
tuple whose last member is the `ATTRIBUTE` enumerator. -/
def ShapeArg.attributeOk : ShapeArg → Bool
  | .extentA .ATTRIBUTE => true
  | .pair2 _ (.extentA .ATTRIBUTE) => true
  | _ => false

/-- `ArrayType._validate_shape` (datatypes.py lines 479-599): validates each
entry, then enforces the two all-or-none rules — a shape containing the
`DEFERRED` enumerator must consist solely of it, and a shape containing the
`ATTRIBUTE` enumerator must have every dimension unspecified.  (The
`shape`-must-be-a-`list` check of lines 563-566 is discharged by the Lean
type of the argument.) -/
def validate_shape (extents : List ShapeArg) : Except PyErr Unit := do
  validateShapeEntries extents
  if extents.any ShapeArg.isDeferred ∧ ¬ extents.all ShapeArg.isDeferred then
    .error (.typeError
      ("A declaration of an allocatable array must have the extent of " ++
       "every dimension as 'DEFERRED' but found shape: " ++
       shapeArgsText extents ++ "."))
  else if extents.any ShapeArg.isAttribute ∧
      ¬ extents.all ShapeArg.attributeOk then
    .error (.typeError
      ("An assumed-shape array must have every dimension unspecified " ++
       "(either as 'ATTRIBUTE' or with the upper bound as 'ATTRIBUTE') " ++
       "but found shape: " ++ shapeArgsText extents ++ "."))
  else
    .ok ()

/-- `_node_from_int` applied to one member of a bounds tuple (datatypes.py
lines 373-386): an `int` becomes a `Literal` of `INTEGER_TYPE`; anything
else is kept unchanged.  (`badType` members never reach this point: they are
rejected by `validate_shape`.) -/
def BoundArg.toBoundVal : BoundArg → BoundVal
  | .int n => .node (.litNode (pyIntRepr n) INTEGER_TYPE)
  | .node d => .node d
  | .extentA e => .extentB e
  | .badType t => .node (.otherNode t)

/-- The shape-storing loop of `ArrayType.__init__` (datatypes.py lines
414-426): a single `int`/`DataNode` entry becomes an `ArrayBounds` with the
default lower bound `1`; a tuple becomes an `ArrayBounds` of its two
members; an `Extent` is stored unchanged.  (`tupleN`/`badType` entries never
reach this point: they are rejected by `validate_shape`.) -/
def ShapeArg.toShapeDim : ShapeArg → ShapeDim
  | .int n => .bounds (.node (.litNode "1" INTEGER_TYPE))
                      (.node (.litNode (pyIntRepr n) INTEGER_TYPE))
  | .node d => .bounds (.node (.litNode "1" INTEGER_TYPE)) (.node d)
  | .pair2 lo hi => .bounds lo.toBoundVal hi.toBoundVal
  | .extentA e => .extentDim e
  | .tupleN _ => .extentDim .DEFERRED
  | .badType _ => .extentDim .DEFERRED

/-- The run-time Python value of the `datatype` argument of
`ArrayType.__init__`: a `DataType`, a `DataTypeSymbol`, or a value of any
other Python type. -/
inductive ArrayElemArg where
  | dt (t : DataType)
  | dtSymbol (name : String)
  | badType (tyName : String)

/-- `ArrayType.__init__` (datatypes.py lines 367-428).  Checks the element
type (a `StructureType` raises `NotImplementedError`; a non-`DataType`,
non-`DataTypeSymbol` value raises `TypeError`; an element with no
`intrinsic` attribute raises `AttributeError`), validates the shape, and
stores the shape with default lower bounds made explicit. -/
def arrayType_new (datatype : ArrayElemArg) (shape : List ShapeArg) :
    Except PyErr DataType := do
  let elem ← match datatype with
    | .dt (.structureTy _) =>
        Except.error (.notImplementedError
          ("When creating an array of structures, the type of those " ++
           "structures must be supplied as a DataTypeSymbol but got a " ++
           "StructureType instead."))
    | .dt t =>
        match arrayElemIntrinsic (.dt t) with
        | none =>
            Except.error (.attributeError
              ("'" ++ t.shortName ++ "' object has no attribute 'intrinsic'"))
        | some _ => pure (ArrayElem.dt t)
    | .dtSymbol n => pure (ArrayElem.dtSymbol n)
    | .badType tyName =>
        Except.error (.typeError
          ("ArrayType expected 'datatype' argument to be of type DataType " ++
           "or DataTypeSymbol but found '" ++ tyName ++ "'."))
  validate_shape shape
  .ok (.arrayTy elem (shape.map ShapeArg.toShapeDim))

/-- `Precision` values compared with Python `==`: enumerators and ints
compare by value within their own kind and are never equal across kinds;
two `DataSymbol`s compare by object identity in Python, which the pure
embedding renders as name equality (no claim depends on this case). -/
def pyEqPrecision : Precision → Precision → Bool
  | .enum p, .enum q => p = q
  | .val n, .val m => n = m
  | .sym a, .sym b => a = b
  | _, _ => false

/-- `Option Precision` values (the `_precision` slot of an `ArrayType`)
compared with Python `==`. -/
def pyEqPrecisionOpt : Option Precision → Option Precision → Bool
  | none, none => true
  | some p, some q => pyEqPrecision p q
  | _, _ => false

/-- Python `==` on the `_intrinsic` slots of two `ArrayType`s.  The `tyObj`
case holds an `UnknownType`, whose `__eq__` compares the parsed type text
(datatypes.py lines 208-218); the parse is performed by fparser (not part of
the inspected sources), so the embedding compares the captured declaration
text, from which the type text is derived. -/
def pyEqArrayIntr : Option ArrayIntr → Option ArrayIntr → Bool
  | some (.intr i), some (.intr j) => i = j
  | some (.tyObj (.unknownFortranTy d)), some (.tyObj (.unknownFortranTy e)) =>
      d = e
  | some (.tyObj _), some (.tyObj _) => false
  | some (.tySym a), some (.tySym b) => a = b
  | none, none => true
  | _, _ => false

mutual
/-- Python `==` on data types, following the `__eq__` methods of
datatypes.py: equality is per-variant and structural (lines 61-68, 311-322,
634-660, 762-778). -/
def pyEqDataType : DataType → DataType → Bool
  | .scalarTy i p, .scalarTy j q => pyEqPrecision p q && i = j
  | .deferredTy, .deferredTy => true
  | .noTy, .noTy => true
  | .unknownFortranTy d, .unknownFortranTy e => d = e
  | .structureTy cs, .structureTy ds =>
      cs.length = ds.length && pyEqCompList cs ds
  | .arrayTy elem shape, .arrayTy elem' shape' =>
      pyEqArrayIntr (arrayElemIntrinsic elem) (arrayElemIntrinsic elem') &&
      pyEqPrecisionOpt (arrayElemPrecision elem) (arrayElemPrecision elem') &&
      shape.length = shape'.length &&
      pyEqShapeList shape shape'
  | _, _ => false
termination_by structural x => x

/-- Componentwise Python `==` on ordered `StructureType` component lists. -/
def pyEqCompList : List StructComp → List StructComp → Bool
  | [], [] => true
  | .mk n t :: cs, .mk m u :: ds =>
      n = m && pyEqDataType t u && pyEqCompList cs ds
  | _, _ => false
termination_by structural x => x

/-- Pairwise Python `==` on two (equal-length) stored shape lists, as in the
`zip` loop of `ArrayType.__eq__` (lines 656-658). -/
def pyEqShapeList : List ShapeDim → List ShapeDim → Bool
  | [], [] => true
  | d :: ds, e :: es => pyEqShapeDim d e && pyEqShapeList ds es
  | _, _ => false
termination_by structural x => x

/-- Python `==` on one stored shape entry: `Extent` enumerators compare by
value; `ArrayBounds` named tuples compare componentwise; an `Extent` never
equals a tuple. -/
def pyEqShapeDim : ShapeDim → ShapeDim → Bool
  | .extentDim e, .extentDim f => e = f
  | .bounds lo hi, .bounds lo' hi' => pyEqBoundVal lo lo' && pyEqBoundVal hi hi'
  | _, _ => false
termination_by structural x => x

/-- Python `==` on one stored bound. -/
def pyEqBoundVal : BoundVal → BoundVal → Bool
  | .node d, .node e => pyEqDataNode d e
  | .extentB e, .extentB f => e = f
  | _, _ => false
termination_by structural x => x

/-- Python `==` on expression nodes appearing in shapes.  Modelled from the
spec for `Literal` and `Reference` (their `__eq__` methods are not part of
the inspected sources): spec §3 prescribes structural, value-based equality,
so two literals are equal when their value text and datatype agree, and two
references when they resolve to the same symbol (rendered by name). -/
def pyEqDataNode : DataNodeM → DataNodeM → Bool
  | .litNode v t, .litNode w u => v = w && pyEqDataType t u
  | .refNode a _, .refNode b _ => a = b
  | .otherNode a, .otherNode b => a = b
  | _, _ => false
termination_by structural x => x
end

end PsyIR

namespace PsyIR

/-! ## The IR node tree

A single expression/statement AST serves both the inlining transformation and
the task-dependency analysis.  It covers the node kinds those routines
inspect: `Literal`, `Reference`, `ArrayReference`, `BinaryOperation`,
`Range`, `Assignment`, `Call`, `Return`, `CodeBlock`, `Loop` and `IfBlock`.
Structure accesses (`StructureReference` and member nodes) are outside the
model; none of the verified properties exercises them.  Nodes are pure
values: `copy()` is the identity and parent links become explicit context
arguments. -/

/-- The binary operators the embedded routines create or inspect. -/
inductive BinOpK where
  | add
  | sub
  | mul
  | lbound
  | ubound
  | otherOp (name : String)
  deriving DecidableEq, Repr

/-- The printable name of an operator (for error messages). -/
def BinOpK.pname : BinOpK → String
  | .add => "Operator.ADD"
  | .sub => "Operator.SUB"
  | .mul => "Operator.MUL"
  | .lbound => "Operator.LBOUND"
  | .ubound => "Operator.UBOUND"
  | .otherOp n => "Operator." ++ n

/-- A PSyIR expression node.  A `Range` keeps its start/stop/step children
(a `Range.create(lo, hi)` has an implicit step of `1`). -/
inductive PExpr where
  | lit (value : String) (datatype : DataType)
  | ref (name : String)
  | aref (name : String) (indices : List PExpr)
  | binop (op : BinOpK) (left right : PExpr)
  | rangeE (startE stopE stepE : PExpr)

/-- A PSyIR statement node. -/
inductive PStmt where
  | assign (lhs rhs : PExpr)
  | callStmt (routine : String) (argNames : List (Option String))
             (args : List PExpr)
  | ret
  | codeBlock (text : String)
  | loopStmt (var : String) (startE stopE stepE : PExpr) (body : List PStmt)
  | ifStmt (cond : PExpr) (thenBody elseBody : List PStmt)

/-- The Python class name of an expression node (what `type(x).__name__`
yields in error messages). -/
def PExpr.typeName : PExpr → String
  | .lit _ _ => "Literal"
  | .ref _ => "Reference"
  | .aref _ _ => "ArrayReference"
  | .binop _ _ _ => "BinaryOperation"
  | .rangeE _ _ _ => "Range"

/-- The Python class name of a statement node. -/
def PStmt.typeName : PStmt → String
  | .assign _ _ => "Assignment"
  | .callStmt _ _ _ => "Call"
  | .ret => "Return"
  | .codeBlock _ => "CodeBlock"
  | .loopStmt _ _ _ _ _ => "Loop"
  | .ifStmt _ _ _ => "IfBlock"

/-- The symbol a `Reference` or `ArrayReference` points at (`x.symbol`). -/
def PExpr.symbolName : PExpr → Option String
  | .ref n => some n
  | .aref n _ => some n
  | _ => none

/-- `isinstance(x, Reference)`: plain references and array references. -/
def PExpr.isReference : PExpr → Bool
  | .ref _ => true
  | .aref _ _ => true
  | _ => false

/-- `isinstance(x, Literal)`. -/
def PExpr.isLiteral : PExpr → Bool
  | .lit _ _ => true
  | _ => false

mutual
/-- Modelled from the spec: the rendering of a node as source text
(`debug_string`/`FortranWriter`, part of the excluded back-end).  Only its
containing the referenced symbol names matters to the verified
properties. -/
def debugString : PExpr → String
  | .lit v _ => v
  | .ref n => n
  | .aref n idxs => n ++ "(" ++ debugStringList idxs ++ ")"
  | .binop op a b => debugString a ++ " " ++ op.pname ++ " " ++ debugString b
  | .rangeE a b _ => debugString a ++ ":" ++ debugString b
termination_by structural x => x

/-- Comma-separated rendering of child expressions. -/
def debugStringList : List PExpr → String
  | [] => ""
  | [x] => debugString x
  | x :: xs => debugString x ++ "," ++ debugStringList xs
termination_by structural x => x
end

/-- `str()` of a `Reference` (reference.py lines 107-119):
`Reference[name:'x']`. -/
def pyStrRef : PExpr → String
  | .ref n => "Reference[name:'" ++ n ++ "']"
  | e => e.typeName

mutual
/-- Python `==` on expression nodes.  Modelled from the spec: the structural
`Node.__eq__` used by the task-directive's list-membership tests is not part
of the inspected sources; spec §3 prescribes structural, value-based
equality (literals by value text and type, references by symbol). -/
def pyEqPExpr : PExpr → PExpr → Bool
  | .lit v t, .lit w u => v = w && pyEqDataType t u
  | .ref a, .ref b => a = b
  | .aref a idxs, .aref b idxs' => a = b && pyEqPExprList idxs idxs'
  | .binop op a b, .binop op' a' b' =>
      op = op' && pyEqPExpr a a' && pyEqPExpr b b'
  | .rangeE a b c, .rangeE a' b' c' =>
      pyEqPExpr a a' && pyEqPExpr b b' && pyEqPExpr c c'
  | _, _ => false
termination_by structural x => x

/-- Pairwise `pyEqPExpr` over child lists. -/
def pyEqPExprList : List PExpr → List PExpr → Bool
  | [], [] => true
  | x :: xs, y :: ys => pyEqPExpr x y && pyEqPExprList xs ys
  | _, _ => false
termination_by structural x => x
end

/-- Python `x in xs` for expression nodes (uses `==` on each element). -/
def pyMem (e : PExpr) (xs : List PExpr) : Bool :=
  xs.any (fun x => pyEqPExpr x e)

/-- `int(lit.value)`: the integer value of a `Literal` node.  A non-numeric
value raises `ValueError`; reading `.value` off a non-`Literal` raises
`AttributeError` (both faithful to what the Python would do). -/
def litIntValue : PExpr → Except PyErr Int
  | .lit v _ =>
      match parsePyInt v with
      | some n => .ok n
      | none =>
          .error (.valueError
            ("invalid literal for int() with base 10: '" ++ v ++ "'"))
  | e =>
      .error (.attributeError
        ("'" ++ e.typeName ++ "' object has no attribute 'value'"))

/-- Python floor division `a // b` (rounds towards minus infinity). -/
def pyFloorDiv (a b : Int) : Int := Int.fdiv a b

/-- Python modulo `a % b` (the sign of the result follows `b`). -/
def pyMod (a b : Int) : Int := Int.fmod a b

/-- `math.ceil(a / b)` on exact integer arguments:
`⌈a/b⌉ = -⌊(-a)/b⌋`. -/
def pyCeilDiv (a b : Int) : Int := -(Int.fdiv (-a) b)

end PsyIR

namespace PsyIR

/-! ## Task dependency-clause synthesis
(`psyclone/psyir/nodes/dynamic_omp_task_directive.py`) -/

/-- The step expression and variable of a loop enclosing the task (an entry
of `_parent_loops`). -/
structure LoopInfoM where
  var : String
  stepExpr : PExpr

/-- The `ProxyVars` named tuple (dynamic_omp_task_directive.py lines
1452-1455): the parent loop variable a proxy stands for, the expressions the
proxy was assigned from, and the parent loop.  (The `loop` member — the
task-internal node that created the proxy — is read by no embedded
routine and is omitted.) -/
structure ProxyVarsM where
  parentVar : String
  parentNode : List PExpr
  parentLoop : LoopInfoM

/-- The state of a `DynamicOMPTaskDirective` that the dependency analysis
reads: the variables of the loops between the task and its parallel region
(`_parent_loop_vars`/`_parent_loops`), the registered proxy loop variables
(`_proxy_loop_vars`), the variables of loops inside the task
(`_child_loop_vars`), and the union of the private and firstprivate symbol
sets inferred for the parallel region (`_parallel_private`, see lines
148-151; symbols are tracked by name, as `_is_reference_private` itself
compares names). -/
structure TaskState where
  parentLoopVars : List String
  parentLoops : List LoopInfoM
  proxyLoopVars : List (String × ProxyVarsM)
  childLoopVars : List String
  parallelPrivate : List String

/-- Looks up a proxy record (`self._proxy_loop_vars[sym]`). -/
def TaskState.proxyOf (st : TaskState) (n : String) : Option ProxyVarsM :=
  (st.proxyLoopVars.find? (fun p => p.1 == n)).map (·.2)

/-- `_is_reference_private` (lines 179-194): whether the reference's symbol
name matches a symbol of the parallel region's private set. -/
def isReferencePrivate (st : TaskState) (e : PExpr) : Bool :=
  match e.symbolName with
  | some n => st.parallelPrivate.contains n
  | none => false

/-- One entry of the `index_list` accumulated for a depend clause: either a
single node or a list of alternative nodes (`index_list.append(binop)`
versus `index_list.append([binop, binop2])`). -/
inductive IndexEntry where
  | single (e : PExpr)
  | multi (es : List PExpr)

/-- The number of dependency expressions an entry carries. -/
def IndexEntry.exprCount : IndexEntry → Nat
  | .single _ => 1
  | .multi es => es.length

/-- `_create_full_range_for_array` (lines 153-177) builds a `Range` covering
a whole dimension: the upper bound is `UBOUND(ref, index+1)` (lines
171-175); the lower bound comes from `get_lbound_expression`, which is not
part of the inspected sources and is modelled from the spec as the
corresponding `LBOUND` query.  The step is the implicit `1` of
`Range.create`. -/
def createFullRangeForArray (arrayRef : PExpr) (index : Nat) : PExpr :=
  .rangeE
    (.binop .lbound arrayRef (.lit (pyIntRepr (index + 1)) INTEGER_TYPE))
    (.binop .ubound arrayRef (.lit (pyIntRepr (index + 1)) INTEGER_TYPE))
    (.lit "1" INTEGER_TYPE)

/-- `_create_binops_from_step_and_divisors` (lines 241-334).  Builds the
dependency expression(s) for an index of the form `Reference OP Literal`
(`refIndexIsZero = true`) or `Literal OP Reference` (`false`), given the
enclosing loop's step, the `divisor = ceil(literal/step)` and the
`modulo = literal % step` computed by the caller.  Returns the first
`BinaryOperation` and, when `modulo` is non-zero, the second one. -/
def createBinopsFromStepAndDivisors (op : BinOpK) (ref : PExpr)
    (stepVal divisor modulo : Int) (refIndexIsZero : Bool) :
    PExpr × Option PExpr :=
  let step : PExpr :=
    if divisor > 1 then
      .binop .mul (.lit (pyIntRepr divisor) INTEGER_TYPE)
                  (.lit (pyIntRepr stepVal) INTEGER_TYPE)
    else
      .lit (pyIntRepr stepVal) INTEGER_TYPE
  let step2 : Option PExpr :=
    if divisor > 1 then
      some (if divisor > 2 then
              .binop .mul (.lit (pyIntRepr (divisor - 1)) INTEGER_TYPE)
                          (.lit (pyIntRepr stepVal) INTEGER_TYPE)
            else
              .lit (pyIntRepr stepVal) INTEGER_TYPE)
    else
      none
  let binop1 : PExpr :=
    if refIndexIsZero then .binop op ref step else .binop op step ref
  let binop2 : Option PExpr :=
    if modulo ≠ 0 then
      some (match step2 with
            | some s2 =>
                if refIndexIsZero then .binop op ref s2 else .binop op s2 ref
            | none => ref)
    else
      none
  (binop1, binop2)

/-- The append step shared by the proxy and parent-loop-variable branches of
`_handle_index_binop` (lines 471-475 and 533-537): one entry when there is
no second binop, a two-element list entry otherwise. -/
def appendBinops (indexList : List IndexEntry) (b : PExpr × Option PExpr) :
    List IndexEntry :=
  match b.2 with
  | some b2 => indexList ++ [.multi [b.1, b2]]
  | none => indexList ++ [.single b.1]

/-- `_handle_index_binop` (lines 336-550).  Evaluates a `BinaryOperation`
used as an array index inside the task.  `node` is the operation,
`containing` the array reference it indexes (in the source this is reached
through parent links).  Returns the extended `index_list` and
`firstprivate_list`.  Raises `GenerationError` for an operator other than
ADD/SUB, for children that are not one `Reference` and one `Literal`, and
for a reference to a shared variable that is neither a proxy loop variable
nor private. -/
def handleIndexBinop (st : TaskState) (node containing : PExpr)
    (indexList : List IndexEntry) (firstprivateList privateList : List PExpr) :
    Except PyErr (List IndexEntry × List PExpr) := do
  match node with
  | .binop op c0 c1 =>
      if op ≠ .add ∧ op ≠ .sub then
        throw (.generationError
          ("Binary Operator of type " ++ op.pname ++ " used as an array " ++
           "index '" ++ debugString node ++ "' inside an OMPTaskDirective " ++
           "which is not supported"))
      else if ¬ ((c0.isReference ∧ c1.isLiteral) ∨
                 (c0.isLiteral ∧ c1.isReference)) then
        throw (.generationError
          ("Children of BinaryOperation are of types " ++ c0.typeName ++
           " and " ++ c1.typeName ++ ", expected one Reference and one " ++
           "Literal when used as an array index inside an OMPTaskDirective."))
      else
        let refIndexIsZero := c0.isReference
        let refE := if refIndexIsZero then c0 else c1
        let literal := if refIndexIsZero then c1 else c0
        let indexSymbol := (refE.symbolName).getD ""
        let indexPrivate := isReferencePrivate st refE
        match st.proxyOf indexSymbol with
        | some pv =>
            -- proxy-loop-variable case (lines 452-475): one entry is built
            -- for each expression the proxy was assigned from.
            let stepVal ← litIntValue pv.parentLoop.stepExpr
            let literalVal ← litIntValue literal
            let divisor := pyCeilDiv literalVal stepVal
            let modulo := pyMod literalVal stepVal
            let entries := pv.parentNode.foldl
              (fun acc tempRef =>
                appendBinops acc
                  (createBinopsFromStepAndDivisors op tempRef stepVal divisor
                    modulo refIndexIsZero))
              indexList
            return (entries, firstprivateList)
        | none =>
            if indexPrivate then
              if pyMem refE privateList then
                -- written-to private index (lines 481-509): a full range,
                -- whether or not it is a child loop variable.
                let dim := indexList.length
                let fullRange := createFullRangeForArray containing dim
                return (indexList ++ [.single fullRange], firstprivateList)
              else
                let fp' :=
                  if ¬ pyMem refE firstprivateList then
                    firstprivateList ++ [refE]
                  else firstprivateList
                if st.parentLoopVars.contains indexSymbol then
                  -- non-proxy access to a parent loop variable (lines
                  -- 513-537).
                  match (st.parentLoopVars.indexOf? indexSymbol).bind
                      (st.parentLoops.get? ·) with
                  | none =>
                      throw (.indexError "list index out of range")
                  | some parentLoop =>
                      let stepVal ← litIntValue parentLoop.stepExpr
                      let literalVal ← litIntValue literal
                      let divisor := pyCeilDiv literalVal stepVal
                      let modulo := pyMod literalVal stepVal
                      return (appendBinops indexList
                        (createBinopsFromStepAndDivisors op refE stepVal
                          divisor modulo refIndexIsZero), fp')
                else
                  -- firstprivate constant (lines 538-542).
                  return (indexList ++ [.single node], fp')
            else
              throw (.generationError
                ("Shared variable '" ++ debugString refE ++ "' used as an " ++
                 "array index inside an OMPTaskDirective which is not " ++
                 "supported. The full access is '" ++ debugString node ++
                 "'."))
  | _ =>
      throw (.internalError
        "_handle_index_binop called on a node that is not a BinaryOperation")

/-- Flattens the entries `_handle_index_binop` placed in a scratch list into
the per-dimension list of a proxy index (lines 652-656: a list element is
spliced in with `extend`, a plain node with `append`). -/
def flattenEntries (es : List IndexEntry) : List PExpr :=
  es.foldl (fun acc e => match e with
    | .single x => acc ++ [x]
    | .multi xs => acc ++ xs) []

/-- The per-index loop of `_evaluate_readonly_arrayref` (lines 608-689),
which accumulates the `index_list` of dependency expressions for a read of
the array `arrRef` with the given index expressions.  A plain `Reference`
index must be private (a shared one raises `GenerationError` naming it); a
`BinaryOperation` index is delegated to `_handle_index_binop`; a `Literal`
index is used directly; any other node kind raises `GenerationError`.
Returns the final `index_list` and `firstprivate_list`. -/
def evalReadonlyIndices (st : TaskState) (arrRef : PExpr) :
    List PExpr → Nat → List IndexEntry → List PExpr → List PExpr →
    Except PyErr (List IndexEntry × List PExpr)
  | [], _, indexList, fpList, _ => .ok (indexList, fpList)
  | index :: rest, dim, indexList, fpList, privList => do
      match index with
      | .ref n =>
          if isReferencePrivate st index then
            let fp' :=
              if ¬ pyMem index privList ∧ ¬ pyMem index fpList then
                fpList ++ [index]
              else fpList
            if st.childLoopVars.contains n then
              evalReadonlyIndices st arrRef rest (dim + 1)
                (indexList ++ [.single (createFullRangeForArray arrRef dim)])
                fp' privList
            else
              match st.proxyOf n with
              | some pv =>
                  -- proxy case (lines 632-660): every expression the proxy
                  -- was assigned from contributes to this dimension's list.
                  let collect ←
                    pv.parentNode.foldlM
                      (fun (acc : List PExpr × List PExpr) parentRef => do
                        match parentRef with
                        | .binop _ _ _ => do
                            let (quick, fp'') ← handleIndexBinop st parentRef
                              arrRef [] acc.2 privList
                            pure (acc.1 ++ flattenEntries quick, fp'')
                        | _ => pure (acc.1 ++ [parentRef], acc.2))
                      (([] : List PExpr), fp')
                  evalReadonlyIndices st arrRef rest (dim + 1)
                    (indexList ++ [.multi collect.1]) collect.2 privList
              | none =>
                  evalReadonlyIndices st arrRef rest (dim + 1)
                    (indexList ++ [.single index]) fp' privList
          else
            throw (.generationError
              ("Shared variable access used as an array index inside an " ++
               "OMPTaskDirective which is not supported. Variable name is '" ++
               pyStrRef index ++ "'."))
      | .binop _ _ _ => do
          let (indexList', fp') ← handleIndexBinop st index arrRef indexList
            fpList privList
          evalReadonlyIndices st arrRef rest (dim + 1) indexList' fp' privList
      | .lit _ _ =>
          evalReadonlyIndices st arrRef rest (dim + 1)
            (indexList ++ [.single index]) fpList privList
      | other =>
          throw (.generationError
            ("'" ++ other.typeName ++ "' object is not allowed to appear in " ++
             "an array index expression inside an OMPTaskDirective."))

end PsyIR

namespace PsyIR

/-! ## Symbols, symbol tables and routines -/

/-- The kind of a symbol (the `Symbol` subclass it instantiates). -/
inductive SymKind where
  | dataSym
  | routineSym
  | containerSym
  | typeSym
  deriving DecidableEq, Repr

/-- A symbol's interface: locally declared, a dummy argument, imported from
a named container, or unresolved. -/
inductive IfaceM where
  | localA
  | argA
  | importA (container : String)
  | unresolvedA
  deriving DecidableEq, Repr

/-- A symbol: name, kind, declared data type and interface.
`wildcardImport` is meaningful for container symbols only. -/
structure SymbolM where
  name : String
  kind : SymKind
  datatype : DataType
  iface : IfaceM
  wildcardImport : Bool := false

/-- `Symbol.is_import`. -/
def SymbolM.isImport (s : SymbolM) : Bool :=
  match s.iface with
  | .importA _ => true
  | _ => false

/-- `Symbol.is_unresolved`. -/
def SymbolM.isUnresolved (s : SymbolM) : Bool := s.iface = .unresolvedA

/-- `Symbol.is_local`. -/
def SymbolM.isLocal (s : SymbolM) : Bool := s.iface = .localA

/-- The container a symbol is imported from (its
`interface.container_symbol.name`), when it is an import. -/
def SymbolM.importContainer (s : SymbolM) : Option String :=
  match s.iface with
  | .importA c => some c
  | _ => none

/-- A symbol table: the symbols of one scope plus the ordered dummy-argument
list (`argument_list`, recorded as names). -/
structure SymTableM where
  symbols : List SymbolM
  argList : List String

/-- `table.lookup(name)` restricted to this table (also `name in table`,
when tested on the result).  Names are compared directly; the examples use
the canonical lower-case form that the source's case-insensitive tables
store. -/
def SymTableM.find (t : SymTableM) (n : String) : Option SymbolM :=
  t.symbols.find? (fun s => s.name == n)

/-- A `Routine`: name, its symbol table, its list of child statements and
its return symbol (`None` for subroutines). -/
structure RoutineM where
  name : String
  table : SymTableM
  body : List PStmt
  returnSymbol : Option String

/-- A `Container` holding routines: its scope's symbols and the routine
definitions. -/
structure ContainerM where
  name : String
  symbols : List SymbolM
  routines : List RoutineM

/-- Symbol lookup along the scope chain of a routine nested in a container
(own table first, then the container), as `SymbolTable.lookup` with
ancestor search does. -/
def lookupChain (caller : RoutineM) (c : ContainerM) (n : String) :
    Option SymbolM :=
  match caller.table.find n with
  | some s => some s
  | none => c.symbols.find? (fun s => s.name == n)

mutual
/-- `node.walk(Reference)` over an expression: all `Reference` nodes
(plain and array references), depth-first pre-order, including those
nested inside array indices. -/
def walkRefsExpr : PExpr → List PExpr
  | .lit _ _ => []
  | .ref n => [.ref n]
  | .aref n idxs => .aref n idxs :: walkRefsExprList idxs
  | .binop _ a b => walkRefsExpr a ++ walkRefsExpr b
  | .rangeE a b c => walkRefsExpr a ++ walkRefsExpr b ++ walkRefsExpr c

/-- `walk(Reference)` over a child list. -/
def walkRefsExprList : List PExpr → List PExpr
  | [] => []
  | x :: xs => walkRefsExpr x ++ walkRefsExprList xs
end

mutual
/-- `node.walk(Reference)` over a statement. -/
def walkRefsStmt : PStmt → List PExpr
  | .assign lhs rhs => walkRefsExpr lhs ++ walkRefsExpr rhs
  | .callStmt _ _ args => walkRefsExprList args
  | .ret => []
  | .codeBlock _ => []
  | .loopStmt _ a b c body =>
      walkRefsExpr a ++ walkRefsExpr b ++ walkRefsExpr c ++ walkRefsStmts body
  | .ifStmt cond tb eb =>
      walkRefsExpr cond ++ walkRefsStmts tb ++ walkRefsStmts eb

/-- `walk(Reference)` over a statement list. -/
def walkRefsStmts : List PStmt → List PExpr
  | [] => []
  | s :: ss => walkRefsStmt s ++ walkRefsStmts ss
end

mutual
/-- The number of `Return` nodes `walk(Return)` finds in a statement. -/
def countReturnsStmt : PStmt → Nat
  | .ret => 1
  | .loopStmt _ _ _ _ body => countReturnsStmts body
  | .ifStmt _ tb eb => countReturnsStmts tb + countReturnsStmts eb
  | _ => 0

/-- The number of `Return` nodes in a statement list. -/
def countReturnsStmts : List PStmt → Nat
  | [] => 0
  | s :: ss => countReturnsStmt s + countReturnsStmts ss
end

mutual
/-- Whether `walk(CodeBlock)` finds anything in a statement. -/
def hasCodeBlockStmt : PStmt → Bool
  | .codeBlock _ => true
  | .loopStmt _ _ _ _ body => hasCodeBlockStmts body
  | .ifStmt _ tb eb => hasCodeBlockStmts tb || hasCodeBlockStmts eb
  | _ => false

/-- Whether a statement list contains a `CodeBlock`. -/
def hasCodeBlockStmts : List PStmt → Bool
  | [] => false
  | s :: ss => hasCodeBlockStmt s || hasCodeBlockStmts ss
end

mutual
/-- Whether `walk(Call)` finds, anywhere in a statement, a `Call` to the
routine of the given name. -/
def hasCallToStmt (n : String) : PStmt → Bool
  | .callStmt r _ _ => r == n
  | .loopStmt _ _ _ _ body => hasCallToStmts n body
  | .ifStmt _ tb eb => hasCallToStmts n tb || hasCallToStmts n eb
  | _ => false

/-- Whether a statement list contains a `Call` to the named routine. -/
def hasCallToStmts (n : String) : List PStmt → Bool
  | [] => false
  | s :: ss => hasCallToStmt n s || hasCallToStmts n ss
end

mutual
/-- Whether an expression contains a `Range` node (`walk(Range)` non-empty). -/
def hasRangeExpr : PExpr → Bool
  | .lit _ _ => false
  | .ref _ => false
  | .aref _ idxs => hasRangeExprList idxs
  | .binop _ a b => hasRangeExpr a || hasRangeExpr b
  | .rangeE _ _ _ => true

/-- Whether any expression of a list contains a `Range` node. -/
def hasRangeExprList : List PExpr → Bool
  | [] => false
  | x :: xs => hasRangeExpr x || hasRangeExprList xs
end

/-- `routine.children` is empty or starts with a `Return`
(inline_trans.py lines 135-136 and 519). -/
def headIsReturn : List PStmt → Bool
  | .ret :: _ => true
  | _ => false

/-- Whether the last top-level statement is a `Return`
(`routine.children[-1]`, line 525). -/
def lastIsReturn (body : List PStmt) : Bool :=
  match body.getLast? with
  | some .ret => true
  | _ => false

end PsyIR

namespace PsyIR

/-! ## Call inlining: `InlineTrans.validate`
(`psyclone/psyir/transformations/inline_trans.py`) -/

/-- `InlineTrans._find_routine` (inline_trans.py lines 628-660): resolve the
called routine's symbol in the scope of the call; an imported routine symbol
is rejected; otherwise the routine of that name is searched for in the
enclosing container. -/
def findRoutine (c : ContainerM) (caller : RoutineM) (name : String) :
    Except PyErr RoutineM :=
  match lookupChain caller c name with
  | none => .error (.keyError ("Could not find '" ++ name ++
      "' in the Symbol Table."))
  | some sym =>
      if ¬ sym.isLocal then
        .error (.transformationError
          ("Routine '" ++ name ++ "' is imported and therefore cannot " ++
           "currently be inlined - TODO #924."))
      else
        match c.routines.find? (fun r => r.name == name) with
        | some r => .ok r
        | none =>
            .error (.transformationError
              ("Failed to find the source for routine '" ++ name ++
               "' and therefore cannot inline it."))

/-- The `Return`-statement precondition (inline_trans.py lines 523-531):
with at least one `Return` in the (walked) body, more than one `Return` or a
final top-level statement that is not a `Return` is rejected. -/
def checkReturns (name : String) (body : List PStmt) : Except PyErr Unit :=
  let nRet := countReturnsStmts body
  if nRet ≠ 0 ∧ (nRet > 1 ∨ ¬ lastIsReturn body) then
    .error (.transformationError
      ("Routine '" ++ name ++ "' contains one or more Return statements " ++
       "and therefore cannot be inlined."))
  else
    .ok ()

/-- The `CodeBlock` precondition (lines 533-536). -/
def checkCodeBlocks (name : String) (body : List PStmt) : Except PyErr Unit :=
  if hasCodeBlockStmts body then
    .error (.transformationError
      ("Routine '" ++ name ++ "' contains one or more CodeBlocks and " ++
       "therefore cannot be inlined."))
  else
    .ok ()

/-- The named-argument precondition (lines 540-544): the first truthy entry
of `node.argument_names` is rejected. -/
def checkNamedArgs (routineName : String) :
    List (Option String) → Except PyErr Unit
  | [] => .ok ()
  | none :: rest => checkNamedArgs routineName rest
  | some an :: rest =>
      if an = "" then checkNamedArgs routineName rest
      else
        .error (.transformationError
          ("Routine '" ++ routineName ++ "' cannot be inlined because it " ++
           "has a named argument '" ++ an ++ "' (TODO #924)."))

/-- The loop body of the import-clash precondition (lines 555-566). -/
def importClashLoop (routine : RoutineM) (routineImportNames : List String) :
    List SymbolM → Except PyErr Unit
  | [] => .ok ()
  | sym :: rest =>
      if routineImportNames.contains sym.name then
        match routine.table.find sym.name with
        | some rsym =>
            if rsym.importContainer ≠ sym.importContainer then
              .error (.transformationError
                ("Routine '" ++ routine.name ++ "' imports '" ++ sym.name ++
                 "' from Container '" ++ (rsym.importContainer.getD "") ++
                 "' but the call site has an import of a symbol with the " ++
                 "same name from Container '" ++
                 (sym.importContainer.getD "") ++ "'."))
            else importClashLoop routine routineImportNames rest
        | none => importClashLoop routine routineImportNames rest
      else importClashLoop routine routineImportNames rest

/-- The import-clash precondition (lines 546-566): a symbol imported under
the same name from differently named containers at the call site and inside
the routine is rejected. -/
def checkImportClashes (table : SymTableM) (routine : RoutineM) :
    Except PyErr Unit :=
  let callsiteImports := table.symbols.filter (·.isImport)
  let routineImports := routine.table.symbols.filter (·.isImport)
  importClashLoop routine (routineImports.map (·.name)) callsiteImports

/-- The loop body of the symbol-resolution precondition (lines 570-583): a
referenced symbol that is not in the routine's own table must resolve, in an
ancestor scope, to an import — an unresolved symbol or one declared in the
parent container is rejected. -/
def refResolutionLoop (c : ContainerM) (routine : RoutineM) :
    List PExpr → Except PyErr Unit
  | [] => .ok ()
  | r :: rest =>
      let rn := (r.symbolName).getD ""
      if (routine.table.find rn).isSome then refResolutionLoop c routine rest
      else
        match c.symbols.find? (fun s => s.name == rn) with
        | none =>
            .error (.keyError ("Could not find '" ++ rn ++
              "' in the Symbol Table."))
        | some sym =>
            if sym.isUnresolved then
              .error (.transformationError
                ("Routine '" ++ routine.name ++ "' cannot be inlined " ++
                 "because it accesses an un-resolved variable '" ++ rn ++
                 "'."))
            else if ¬ sym.isImport then
              .error (.transformationError
                ("Routine '" ++ routine.name ++ "' cannot be inlined " ++
                 "because it accesses variable '" ++ rn ++ "' from its " ++
                 "parent container."))
            else refResolutionLoop c routine rest

/-- The symbol-resolution precondition applied to every reference of the
routine body. -/
def checkRefResolution (c : ContainerM) (routine : RoutineM) :
    Except PyErr Unit :=
  refResolutionLoop c routine (walkRefsStmts routine.body)

/-- The stand-in element type used when an array's element is given by a
`DataTypeSymbol`: its type is not resolved here, so the deferred type (with
no `shape` attribute, hence rank 0) stands for it. -/
def elemStandIn : ArrayElem → DataType
  | .dt t => t
  | .dtSymbol _ => .deferredTy

/-- Modelled from the spec: the `datatype` of an actual-argument expression
at the call site (the `Reference.datatype`/`ArrayMixin.datatype` properties
are not part of the inspected sources).  Per spec §3/§4.3 a plain reference
has the declared type of its symbol; an array reference that supplies a
scalar index for every dimension accesses a single element and has the
element type, while each dimension indexed by a `Range` keeps that
dimension of the array's shape. -/
def refDatatype (c : ContainerM) (caller : RoutineM) : PExpr → Option DataType
  | .ref n => (lookupChain caller c n).map (·.datatype)
  | .aref n idxs =>
      match lookupChain caller c n with
      | some s =>
          match s.datatype with
          | .arrayTy elem shape =>
              let kept := (idxs.zip shape).filterMap
                (fun p => match p.1 with
                  | .rangeE _ _ _ => some p.2
                  | _ => none)
              if kept.isEmpty then some (elemStandIn elem)
              else some (.arrayTy elem kept)
          | dt => some dt
      | none => none
  | _ => none

/-- `len(dt.shape)` when the datatype has a `shape` attribute, else rank 0
(the `hasattr` tests of inline_trans.py lines 598-601). -/
def rankOfDatatype : Option DataType → Nat
  | some (.arrayTy _ shape) => shape.length
  | _ => 0

/-- The reshaping error message of inline_trans.py lines 607-612; it names
both the actual argument's rank and the dummy argument's rank. -/
def rankErrMsg (routineName actualText dummyName : String)
    (actualRank dummyRank : Nat) : String :=
  "Cannot inline routine '" ++ routineName ++ "' because it reshapes an " ++
  "argument: actual argument '" ++ actualText ++ "' has rank " ++
  pyIntRepr actualRank ++ " but the corresponding dummy argument, '" ++
  dummyName ++ "', has rank " ++ pyIntRepr dummyRank

/-- Modelled from the spec: `ArrayMixin.is_full_range` is not part of the
inspected sources.  Per spec §4.5 an actual argument that is an array
subsection must be a full-extent subsection; a full extent runs from the
dimension's `LBOUND` to its `UBOUND` with stride one, which is how the
PSyIR renders `a(:)`. -/
def isFullRange (arrName : String) (dim : Nat) : PExpr → Bool
  | .rangeE (.binop .lbound (.ref a) (.lit l _))
            (.binop .ubound (.ref b) (.lit u _))
            (.lit s _) =>
      a == arrName && b == arrName && l == pyIntRepr (dim + 1) &&
      u == pyIntRepr (dim + 1) && s == "1"
  | _ => false

/-- The subsection checks of lines 613-626 over the index positions of an
array actual argument: a top-level `Range` that is not a full range is
rejected as a subsection; a `Range` nested below an index expression is the
indirect-access case rejected with the placeholder message. -/
def subsectionLoop (routineName arrName : String) (actual : PExpr) :
    List PExpr → Nat → Except PyErr Unit
  | [], _ => .ok ()
  | idx :: rest, i =>
      match idx with
      | .rangeE a b c =>
          if ¬ isFullRange arrName i (.rangeE a b c) then
            .error (.transformationError
              ("Cannot inline routine '" ++ routineName ++ "' because " ++
               "argument '" ++ debugString actual ++ "' is an array " ++
               "subsection (TODO #924)."))
          else subsectionLoop routineName arrName actual rest (i + 1)
      | e =>
          if hasRangeExpr e then .error (.transformationError "TODO")
          else subsectionLoop routineName arrName actual rest (i + 1)

/-- The rank- and subsection-check loop of lines 587-626 over the zipped
(dummy argument, actual argument) pairs: a non-`Reference` actual is
skipped; differing ranks are rejected with a message naming both ranks;
an actual of non-zero rank has its `Range` children checked. -/
def argRankLoop (c : ContainerM) (caller routine : RoutineM) :
    List (String × PExpr) → Except PyErr Unit
  | [] => .ok ()
  | (dummyName, actual) :: rest =>
      if ¬ actual.isReference then argRankLoop c caller routine rest
      else
        let dummyRank :=
          rankOfDatatype ((routine.table.find dummyName).map (·.datatype))
        let actualRank := rankOfDatatype (refDatatype c caller actual)
        if dummyRank ≠ actualRank then
          .error (.transformationError
            (rankErrMsg routine.name (debugString actual) dummyName
              actualRank dummyRank))
        else if actualRank ≠ 0 then
          match actual with
          | .aref an idxs => do
              subsectionLoop routine.name an actual idxs 0
              argRankLoop c caller routine rest
          | _ => argRankLoop c caller routine rest
        else argRankLoop c caller routine rest

/-- The rank/subsection precondition over the call's argument pairing. -/
def checkArgRanks (c : ContainerM) (caller routine : RoutineM)
    (args : List PExpr) : Except PyErr Unit :=
  argRankLoop c caller routine (routine.table.argList.zip args)

/-- `InlineTrans.validate` (inline_trans.py lines 478-626).  The call to be
inlined is the statement at position `idx` of the caller's body (parent
links being explicit positions in the pure model); a non-`Call` statement
there, or an absent one, is rejected as a wrong target.  An empty callee,
or one whose body starts with a `Return`, is accepted immediately (lines
519-521); otherwise the preconditions are checked in the source's order. -/
def validateInline (c : ContainerM) (caller : RoutineM) (idx : Nat) :
    Except PyErr Unit := do
  match caller.body.get? idx with
  | none =>
      throw (.transformationError
        ("The target of the InlineTrans transformation should be a Call " ++
         "but found 'NoneType'."))
  | some (.callStmt name argNames args) => do
      let routine ← findRoutine c caller name
      if routine.body.isEmpty ∨ headIsReturn routine.body then
        pure ()
      else do
        checkReturns name routine.body
        checkCodeBlocks name routine.body
        checkNamedArgs routine.name argNames
        checkImportClashes caller.table routine
        checkRefResolution c routine
        checkArgRanks c caller routine args
  | some other =>
      throw (.transformationError
        ("The target of the InlineTrans transformation should be a Call " ++
         "but found '" ++ other.typeName ++ "'."))

end PsyIR

namespace PsyIR

/-! ## Call inlining: `InlineTrans.apply`

In the source, renaming a symbol updates every reference through the shared
`Symbol` object (spec §4.2).  The pure embedding returns the renames
performed on each side as name maps and applies them to exactly the trees
that referenced those symbols: the caller-side map to the caller's existing
statements and the actual arguments, the routine-side map to the copied
callee statements.  A literal whose precision symbol was renamed is updated
through the same map, mirroring the `precision_map` fix-up of
inline_trans.py lines 148-160 and 469-476. -/

/-- Applies a sequence of renames to one name. -/
def renameName (rens : List (String × String)) (n : String) : String :=
  rens.foldl (fun acc p => if acc == p.1 then p.2 else acc) n

/-- Renames the precision symbol of a literal's scalar datatype (the
`precision_map` update of lines 469-476). -/
def renameLitDatatype (rens : List (String × String)) : DataType → DataType
  | .scalarTy i (.sym n) => .scalarTy i (.sym (renameName rens n))
  | t => t

mutual
/-- Applies symbol renames to every reference of an expression. -/
def renameExpr (rens : List (String × String)) : PExpr → PExpr
  | .lit v dt => .lit v (renameLitDatatype rens dt)
  | .ref n => .ref (renameName rens n)
  | .aref n idxs => .aref (renameName rens n) (renameExprList rens idxs)
  | .binop op a b => .binop op (renameExpr rens a) (renameExpr rens b)
  | .rangeE a b c =>
      .rangeE (renameExpr rens a) (renameExpr rens b) (renameExpr rens c)

/-- Applies symbol renames to a list of expressions. -/
def renameExprList (rens : List (String × String)) : List PExpr → List PExpr
  | [] => []
  | x :: xs => renameExpr rens x :: renameExprList rens xs
end

mutual
/-- Applies symbol renames to every reference of a statement. -/
def renameStmt (rens : List (String × String)) : PStmt → PStmt
  | .assign lhs rhs => .assign (renameExpr rens lhs) (renameExpr rens rhs)
  | .callStmt r ans args =>
      .callStmt (renameName rens r) ans (renameExprList rens args)
  | .ret => .ret
  | .codeBlock t => .codeBlock t
  | .loopStmt v a b c body =>
      .loopStmt (renameName rens v) (renameExpr rens a) (renameExpr rens b)
        (renameExpr rens c) (renameStmts rens body)
  | .ifStmt cond tb eb =>
      .ifStmt (renameExpr rens cond) (renameStmts rens tb)
        (renameStmts rens eb)

/-- Applies symbol renames to a list of statements. -/
def renameStmts (rens : List (String × String)) : List PStmt → List PStmt
  | [] => []
  | s :: ss => renameStmt rens s :: renameStmts rens ss
end

/-- Whether a name is used in neither symbol list. -/
def nameFreeIn (t other : List SymbolM) (n : String) : Bool :=
  !(t.any (fun s => s.name == n)) && !(other.any (fun s => s.name == n))

/-- Fuelled search for the first free suffixed name. -/
def nextAvailableNameAux (t other : List SymbolM) (base : String) :
    Nat → Nat → String
  | 0, k => base ++ "_" ++ pyIntRepr k
  | fuel + 1, k =>
      let cand := base ++ "_" ++ pyIntRepr k
      if nameFreeIn t other cand then cand
      else nextAvailableNameAux t other base fuel (k + 1)

/-- Modelled from the spec (§4.2): `SymbolTable.next_available_name(base,
other_table)` is not part of the inspected sources; it returns `base` when
free, else `base_1`, `base_2`, …, avoiding every name visible in this table
and in `other_table`.  The fuel exceeds the number of occupied names, so a
free candidate is always reached. -/
def nextAvailableName (t other : List SymbolM) (base : String) : String :=
  if nameFreeIn t other base then base
  else nextAvailableNameAux t other base (t.length + other.length + 1) 1

/-- Renames the (first) symbol of the given name inside a symbol list. -/
def tableRename (tbl : List SymbolM) (old new : String) : List SymbolM :=
  tbl.map (fun s => if s.name == old then { s with name := new } else s)

/-- Sets the wildcard-import flag of the named container symbol. -/
def tableSetWildcard (tbl : List SymbolM) (n : String) : List SymbolM :=
  tbl.map (fun s =>
    if s.name == n then { s with wildcardImport := true } else s)

/-- The per-import loop of `_inline_container_symbols` (lines 387-403): a
call-site symbol clashing with a symbol the routine imports from `csym`,
and which is not itself an import, is renamed (the routine's import then
resolves to the call-site container of the same name). -/
def containerImportLoop (routineTable : SymTableM) :
    List SymbolM → List SymbolM × List (String × String) →
    List SymbolM × List (String × String)
  | [], st => st
  | isym :: rest, (tbl, ren) =>
      match tbl.find? (fun s => s.name == isym.name) with
      | some callsiteSym =>
          if ¬ callsiteSym.isImport then
            let newName :=
              nextAvailableName tbl routineTable.symbols callsiteSym.name
            containerImportLoop routineTable rest
              (tableRename tbl callsiteSym.name newName,
               ren ++ [(callsiteSym.name, newName)])
          else containerImportLoop routineTable rest (tbl, ren)
      | none => containerImportLoop routineTable rest (tbl, ren)

/-- The per-container loop of `_inline_container_symbols` (lines 352-403).
Takes container symbols of the routine's table into the call-site table:
on a name clash with a non-container symbol the call-site symbol is renamed
and the container added; a clash with a container merges the wildcard-import
flag; otherwise the container is added.  References to symbols the routine
imports from the container are reconciled by renaming clashing non-import
call-site symbols. -/
def containerSymbolLoop (routineTable : SymTableM) :
    List SymbolM → List SymbolM × List (String × String) →
    List SymbolM × List (String × String)
  | [], st => st
  | csym :: rest, (tbl, ren) =>
      let (tbl1, ren1) :=
        match tbl.find? (fun s => s.name == csym.name) with
        | some other =>
            if other.kind ≠ .containerSym then
              let newName :=
                nextAvailableName tbl routineTable.symbols csym.name
              (tableRename tbl other.name newName ++ [csym],
               ren ++ [(other.name, newName)])
            else
              (if csym.wildcardImport then tableSetWildcard tbl csym.name
               else tbl, ren)
        | none => (tbl ++ [csym], ren)
      let imported := routineTable.symbols.filter
        (fun s => s.importContainer == some csym.name)
      let (tbl2, ren2) := containerImportLoop routineTable imported (tbl1, ren1)
      containerSymbolLoop routineTable rest (tbl2, ren2)

/-- `InlineTrans._inline_container_symbols` (lines 352-403) over the whole
routine table; returns the updated call-site symbols and the renames that
were applied to call-site symbols. -/
def inlineContainerSymbols (table routineTable : SymTableM) :
    List SymbolM × List (String × String) :=
  containerSymbolLoop routineTable
    (routineTable.symbols.filter (fun s => s.kind = .containerSym))
    (table.symbols, [])

/-- The per-symbol loop of `_inline_symbols` (lines 429-467).  Dummy
arguments, container symbols and the routine's own symbol are skipped; a
fresh name is added directly; on a clash, an imported symbol must already
have its container present at the call site (it is then not re-added),
while a non-import routine symbol is renamed and added. -/
def inlineSymbolLoop (routineTable : SymTableM) (routineName : String) :
    List SymbolM → List SymbolM × List (String × String) →
    Except PyErr (List SymbolM × List (String × String))
  | [], st => .ok st
  | oldSym :: rest, (tbl, ren) =>
      if routineTable.argList.contains oldSym.name ∨
          oldSym.kind = .containerSym then
        inlineSymbolLoop routineTable routineName rest (tbl, ren)
      else if oldSym.name = routineName ∧ oldSym.kind = .routineSym then
        inlineSymbolLoop routineTable routineName rest (tbl, ren)
      else if tbl.any (fun s => s.name == oldSym.name) then
        -- `table.add` raised KeyError: a clash with a call-site symbol.
        if oldSym.isImport then
          match tbl.find? (fun s =>
              some s.name == oldSym.importContainer) with
          | some _ =>
              -- The import was reconciled by _inline_container_symbols: the
              -- call-site symbol of this name stands for it (the source's
              -- container-identity check cannot fail in the name model).
              inlineSymbolLoop routineTable routineName rest (tbl, ren)
          | none =>
              .error (.keyError ("Could not find '" ++
                (oldSym.importContainer.getD "") ++ "' in the Symbol Table."))
        else
          let newName :=
            nextAvailableName tbl routineTable.symbols oldSym.name
          inlineSymbolLoop routineTable routineName rest
            (tbl ++ [{ oldSym with name := newName }],
             ren ++ [(oldSym.name, newName)])
      else
        inlineSymbolLoop routineTable routineName rest
          (tbl ++ [oldSym], ren)

/-- `InlineTrans._inline_symbols` (lines 405-476); returns the updated
call-site symbols and the renames applied to routine-side symbols. -/
def inlineSymbols (tbl : List SymbolM) (routineTable : SymTableM)
    (routineName : String) :
    Except PyErr (List SymbolM × List (String × String)) :=
  inlineSymbolLoop routineTable routineName routineTable.symbols (tbl, [])

/-- The index rebuild of `replace_dummy_arg` when both the local and the
actual reference are array accesses and the call contains a `Range` (lines
318-331): each `Range` among the call-site indices is replaced by the next
local index expression; the other call-site indices are copied. -/
def pickIndices : List PExpr → List PExpr → Nat → Except PyErr (List PExpr)
  | [], _, _ => .ok []
  | idx :: rest, locals, posn =>
      match idx with
      | .rangeE _ _ _ =>
          match locals.get? posn with
          | none => .error (.indexError "list index out of range")
          | some li => (pickIndices rest locals (posn + 1)).map (li :: ·)
      | e => (pickIndices rest locals posn).map (e :: ·)

mutual
/-- `InlineTrans.replace_dummy_arg` (lines 208-350) applied to every
reference of the copied callee body, restricted to this AST (no structure
members, so the `members` list of lines 285-304 is always empty).
`actualFor` maps a dummy-argument name to the actual argument at the call
site; a reference to a non-dummy symbol is unchanged; a plain local
reference is replaced by a copy of the actual argument; a local array
access whose actual is a plain reference is retargeted at the actual's
symbol; two array accesses combine through `pickIndices` when the call
carries a `Range`, and otherwise raise the `InternalError` of lines
333-339 (or, with one side lacking indices, keep the call-site indices —
the local-index loop of lines 341-344 iterates a freshly emptied list and
contributes nothing).  A non-`Reference` actual for an array-access dummy
makes the source iterate `top_indices = None`: a Python `TypeError`. -/
def substExpr (actualFor : String → Option PExpr) (callHasRanges : Bool)
    (callName : String) : PExpr → Except PyErr PExpr
  | .lit v dt => .ok (.lit v dt)
  | .ref s =>
      match actualFor s with
      | none => .ok (.ref s)
      | some actual => .ok actual
  | .aref s idxs =>
      match actualFor s with
      | none => do
          let idxs' ← substExprList actualFor callHasRanges callName idxs
          .ok (.aref s idxs')
      | some actual =>
          match actual with
          | .ref b => do
              let idxs' ← substExprList actualFor callHasRanges callName idxs
              .ok (.aref b idxs')
          | .aref b topIdxs => do
              let substitutedLocals ←
                substExprList actualFor callHasRanges callName idxs
              if callHasRanges then do
                let newIdxs ← pickIndices topIdxs substitutedLocals 0
                .ok (.aref b newIdxs)
              else if ¬ topIdxs.isEmpty ∧ ¬ idxs.isEmpty then
                .error (.internalError
                  ("The reference to '" ++ s ++ "' in the call to '" ++
                   callName ++ "' is an array access but there is also an " ++
                   "array access to the corresponding dummy argument in " ++
                   "that routine. This should not be possible."))
              else
                .ok (.aref b topIdxs)
          | _ => .error (.typeError "'NoneType' object is not iterable")
  | .binop op a b => do
      let a' ← substExpr actualFor callHasRanges callName a
      let b' ← substExpr actualFor callHasRanges callName b
      .ok (.binop op a' b')
  | .rangeE a b c => do
      let a' ← substExpr actualFor callHasRanges callName a
      let b' ← substExpr actualFor callHasRanges callName b
      let c' ← substExpr actualFor callHasRanges callName c
      .ok (.rangeE a' b' c')

/-- `replace_dummy_arg` over a list of expressions. -/
def substExprList (actualFor : String → Option PExpr) (callHasRanges : Bool)
    (callName : String) : List PExpr → Except PyErr (List PExpr)
  | [] => .ok []
  | x :: xs => do
      let x' ← substExpr actualFor callHasRanges callName x
      let xs' ← substExprList actualFor callHasRanges callName xs
      .ok (x' :: xs')
end

mutual
/-- Dummy-argument substitution over every reference of a statement. -/
def substStmt (actualFor : String → Option PExpr) (callHasRanges : Bool)
    (callName : String) : PStmt → Except PyErr PStmt
  | .assign lhs rhs => do
      let lhs' ← substExpr actualFor callHasRanges callName lhs
      let rhs' ← substExpr actualFor callHasRanges callName rhs
      .ok (.assign lhs' rhs')
  | .callStmt r ans args => do
      let args' ← substExprList actualFor callHasRanges callName args
      .ok (.callStmt r ans args')
  | .ret => .ok .ret
  | .codeBlock t => .ok (.codeBlock t)
  | .loopStmt v a b c body => do
      let a' ← substExpr actualFor callHasRanges callName a
      let b' ← substExpr actualFor callHasRanges callName b
      let c' ← substExpr actualFor callHasRanges callName c
      let body' ← substStmts actualFor callHasRanges callName body
      .ok (.loopStmt v a' b' c' body')
  | .ifStmt cond tb eb => do
      let cond' ← substExpr actualFor callHasRanges callName cond
      let tb' ← substStmts actualFor callHasRanges callName tb
      let eb' ← substStmts actualFor callHasRanges callName eb
      .ok (.ifStmt cond' tb' eb')

/-- Dummy-argument substitution over a list of statements. -/
def substStmts (actualFor : String → Option PExpr) (callHasRanges : Bool)
    (callName : String) : List PStmt → Except PyErr (List PStmt)
  | [] => .ok []
  | s :: ss => do
      let s' ← substStmt actualFor callHasRanges callName s
      let ss' ← substStmts actualFor callHasRanges callName ss
      .ok (s' :: ss')
end

/-- `node.replace_with(new_stmts[0])` followed by inserting the remaining
statements (inline_trans.py lines 199-206): the call statement at `idx` is
replaced by the new statement sequence. -/
def spliceAt (body : List PStmt) (idx : Nat) (newStmts : List PStmt) :
    List PStmt :=
  body.take idx ++ newStmts ++ body.drop (idx + 1)

/-- `InlineTrans.apply` (inline_trans.py lines 117-206) for a call that is
the statement at position `idx` of the caller's body.  After validation, an
empty callee (or one starting with a `Return`) just detaches the call
(lines 135-139); otherwise the callee's container symbols and other local
symbols are merged into the call-site table, dummy-argument references in
the copied body are replaced by the actual arguments, a trailing `Return`
is dropped, and the statements are spliced in place of the call.  The
function-return path of lines 185-198 is outside this statement-positional
model (a `Call` with a return value is an expression child of an
`Assignment`, not a statement). -/
def applyInline (c : ContainerM) (caller : RoutineM) (idx : Nat) :
    Except PyErr RoutineM := do
  validateInline c caller idx
  match caller.body.get? idx with
  | some (.callStmt name _argNames args) => do
      let origRoutine ← findRoutine c caller name
      if origRoutine.body.isEmpty ∨ headIsReturn origRoutine.body then
        pure { caller with body := caller.body.eraseIdx idx }
      else do
      let routine := origRoutine
      let (tbl1, renCaller) :=
        inlineContainerSymbols caller.table routine.table
      let (tbl2, renRoutine) ← inlineSymbols tbl1 routine.table routine.name
      let callerBody := renameStmts renCaller caller.body
      let argsRen := renameExprList renCaller args
      let newStmts := renameStmts renRoutine routine.body
      let dummyArgs := routine.table.argList
      let actualFor := fun s =>
        (dummyArgs.findIdx? (fun d => d == s)).bind (fun i => argsRen.get? i)
      let callHasRanges := hasRangeExprList argsRen
      let newStmts ← substStmts actualFor callHasRanges name newStmts
      let newStmts :=
        if lastIsReturn newStmts then newStmts.dropLast else newStmts
      match routine.returnSymbol with
      | some _ =>
          throw (.internalError
            ("the function-return path of InlineTrans.apply (lines " ++
             "185-198) is outside this statement-positional model"))
      | none =>
          return { caller with
                   table := { symbols := tbl2,
                              argList := caller.table.argList },
                   body := spliceAt callerBody idx newStmts }
  | _ => throw (.internalError "validate ensured the target is a Call")

end PsyIR

namespace PsyIR

/-! ## The module-information collaborator
(`psyclone/parse/module_info.py`) -/

/-- A `Container` node as produced by the front-end for one module: its name
and its symbol table. -/
structure ContainerNodeM where
  name : String
  table : List SymbolM

/-- A `FileContainer`: the file-level node whose children are the module
containers. -/
structure FileContainerM where
  name : String
  children : List ContainerNodeM
  deriving Inhabited

/-- A `ModuleInfo` object, reduced to the fields its embedded methods read:
the module name, the source file name, and the PSyIR cache
(module_info.py lines 86-133; the other caches belong to methods outside
the verified properties). -/
structure ModuleInfoM where
  name : String
  filename : String
  psyirCache : Option FileContainerM

/-- `os.path.basename`: the part of a path after the last `/`. -/
def basename (path : String) : String :=
  (path.splitOn "/").getLastD path

/-- Whether an exception belongs to one of the classes `get_psyir` catches
(module_info.py line 337: `KeyError`, `SymbolError`, `InternalError`,
`FortranSyntaxError`). -/
def caughtByGetPsyir : PyErr → Bool
  | .keyError _ => true
  | .symbolError _ => true
  | .internalError _ => true
  | .fortranSyntaxError _ => true
  | _ => false

/-- The dummy `FileContainer` with an empty `Container` named
`invalid-module` that `get_psyir` substitutes on a recoverable conversion
failure (module_info.py lines 341-343). -/
def dummyFileContainer (filename : String) : FileContainerM :=
  { name := basename filename,
    children := [{ name := "invalid-module", table := [] }] }

/-- `ModuleInfo.get_psyir` (module_info.py lines 314-351), with the
front-end conversion `self._processor.generate_psyir(...)` — an external
collaborator — supplied as `genResult`.  On a cache miss, a successful
conversion is cached and returned; a failure of one of the caught classes
is replaced by the dummy `FileContainer`, which is cached and returned; any
other exception propagates.  Returns the PSyIR together with the updated
`ModuleInfo`. -/
def get_psyir (mi : ModuleInfoM) (genResult : Except PyErr FileContainerM) :
    Except PyErr (FileContainerM × ModuleInfoM) :=
  match mi.psyirCache with
  | some p => .ok (p, mi)
  | none =>
      match genResult with
      | .ok p => .ok (p, { mi with psyirCache := some p })
      | .error e =>
          if caughtByGetPsyir e then
            let dummy := dummyFileContainer mi.filename
            .ok (dummy, { mi with psyirCache := some dummy })
          else
            .error e

/-- Modelled from the spec (§4.2): `SymbolTable.lookup` is not part of the
inspected sources; it fails (with `KeyError`) when the name is absent from
the table. -/
def symbolTableLookup (tbl : List SymbolM) (n : String) :
    Except PyErr SymbolM :=
  match tbl.find? (fun s => s.name == n) with
  | some s => .ok s
  | none =>
      .error (.keyError ("Could not find '" ++ n ++ "' in the Symbol Table."))

/-- `ModuleInfo.get_symbol` (module_info.py lines 390-407): look the name up
in the symbol table of the first child container of the module's PSyIR,
converting a `KeyError` (symbol not found) into the absent value `None`. -/
def get_symbol (mi : ModuleInfoM) (genResult : Except PyErr FileContainerM)
    (name : String) : Except PyErr (Option SymbolM × ModuleInfoM) := do
  let (psyir, mi') ← get_psyir mi genResult
  match psyir.children.get? 0 with
  | none => .error (.indexError "list index out of range")
  | some child =>
      match symbolTableLookup child.table name with
      | .ok s => .ok (some s, mi')
      | .error (.keyError _) => .ok (none, mi')
      | .error e => .error e

end PsyIR

namespace PsyIR

/-! ## Helpers for stating the verified properties, and concrete programs -/

/-- The computation raised a `TypeError`. -/
def raisesTypeError {α : Type} : Except PyErr α → Bool
  | .error (.typeError _) => true
  | _ => false

/-- The computation raised a `ValueError`. -/
def raisesValueError {α : Type} : Except PyErr α → Bool
  | .error (.valueError _) => true
  | _ => false

/-- The computation raised a `GenerationError`. -/
def raisesGenerationError {α : Type} : Except PyErr α → Bool
  | .error (.generationError _) => true
  | _ => false

/-- The computation raised a `TransformationError`. -/
def raisesTransformationError {α : Type} : Except PyErr α → Bool
  | .error (.transformationError _) => true
  | _ => false

/-- Classifier used in statements: a shape-list entry that specifies its
dimension fully (an `int`, an expression node, or a bounds pair whose upper
bound is an `int` or expression node). -/
def ShapeArg.fullySpecified : ShapeArg → Bool
  | .int _ => true
  | .node _ => true
  | .pair2 _ (.int _) => true
  | .pair2 _ (.node _) => true
  | _ => false

/-- The stored form of `ArrayType(REAL_TYPE, [10])` and of
`ArrayType(REAL_TYPE, [(1, 10)])`: one dimension with the default lower
bound `1` made explicit. -/
def c6ArrayTen : DataType :=
  .arrayTy (.dt REAL_TYPE)
    [.bounds (.node (.litNode "1" INTEGER_TYPE))
             (.node (.litNode "10" INTEGER_TYPE))]

/-- The callee of the call-inlining end-to-end property:
`subroutine sub(x); x = 2.0*x; end`. -/
def c1CalleeSub : RoutineM :=
  { name := "sub",
    table := { symbols := [⟨"x", .dataSym, REAL_TYPE, .argA, false⟩],
               argList := ["x"] },
    body := [.assign (.ref "x")
               (.binop .mul (.lit "2.0" REAL_TYPE) (.ref "x"))],
    returnSymbol := none }

/-- The one-dimensional `real a(10)` array type of the example caller. -/
def c1ArrayA : DataType :=
  .arrayTy (.dt REAL_TYPE)
    [.bounds (.node (.litNode "1" INTEGER_TYPE))
             (.node (.litNode "10" INTEGER_TYPE))]

/-- The caller of the end-to-end property: its body is
`a(i) = 1.0; call sub(a(i))`. -/
def c1Caller : RoutineM :=
  { name := "run_it",
    table := { symbols := [⟨"i", .dataSym, INTEGER_TYPE, .localA, false⟩,
                           ⟨"a", .dataSym, c1ArrayA, .localA, false⟩],
               argList := [] },
    body := [.assign (.aref "a" [.ref "i"]) (.lit "1.0" REAL_TYPE),
             .callStmt "sub" [none] [.aref "a" [.ref "i"]]],
    returnSymbol := none }

/-- The module containing the example caller and callee. -/
def c1Container : ContainerM :=
  { name := "test_mod",
    symbols := [⟨"run_it", .routineSym, .noTy, .localA, false⟩,
                ⟨"sub", .routineSym, .noTy, .localA, false⟩],
    routines := [c1Caller, c1CalleeSub] }

/-- The expected caller after inlining: `a(i) = 1.0; a(i) = 2.0 * a(i)`. -/
def c1CallerAfter : RoutineM :=
  { c1Caller with
    body := [.assign (.aref "a" [.ref "i"]) (.lit "1.0" REAL_TYPE),
             .assign (.aref "a" [.ref "i"])
               (.binop .mul (.lit "2.0" REAL_TYPE) (.aref "a" [.ref "i"]))] }

/-- The two-dimensional dummy-argument type of the reshaping example. -/
def c3Array2 : DataType :=
  .arrayTy (.dt REAL_TYPE)
    [.bounds (.node (.litNode "1" INTEGER_TYPE))
             (.node (.litNode "10" INTEGER_TYPE)),
     .bounds (.node (.litNode "1" INTEGER_TYPE))
             (.node (.litNode "10" INTEGER_TYPE))]

/-- The one-dimensional actual-argument type of the reshaping example. -/
def c3Array1 : DataType :=
  .arrayTy (.dt REAL_TYPE)
    [.bounds (.node (.litNode "1" INTEGER_TYPE))
             (.node (.litNode "10" INTEGER_TYPE))]

/-- A callee with a rank-2 array dummy argument `m`. -/
def c3Callee : RoutineM :=
  { name := "sub2",
    table := { symbols := [⟨"m", .dataSym, c3Array2, .argA, false⟩],
               argList := ["m"] },
    body := [.assign
               (.aref "m" [.lit "1" INTEGER_TYPE, .lit "1" INTEGER_TYPE])
               (.lit "0.0" REAL_TYPE)],
    returnSymbol := none }

/-- A caller passing the rank-1 array `b` to `sub2`. -/
def c3Caller : RoutineM :=
  { name := "caller3",
    table := { symbols := [⟨"b", .dataSym, c3Array1, .localA, false⟩],
               argList := [] },
    body := [.callStmt "sub2" [none] [.ref "b"]],
    returnSymbol := none }

/-- The module of the reshaping example. -/
def c3Container : ContainerM :=
  { name := "mod3",
    symbols := [⟨"caller3", .routineSym, .noTy, .localA, false⟩,
                ⟨"sub2", .routineSym, .noTy, .localA, false⟩],
    routines := [c3Caller, c3Callee] }

/-- A callee whose body starts with a `Return` that is not its final
statement. -/
def c4Callee : RoutineM :=
  { name := "sub4",
    table := { symbols := [⟨"y", .dataSym, INTEGER_TYPE, .localA, false⟩],
               argList := [] },
    body := [.ret, .assign (.ref "y") (.lit "1" INTEGER_TYPE)],
    returnSymbol := none }

/-- A caller of `sub4`. -/
def c4Caller : RoutineM :=
  { name := "caller4",
    table := { symbols := [], argList := [] },
    body := [.callStmt "sub4" [] []],
    returnSymbol := none }

/-- The module of the early-`Return` example. -/
def c4Container : ContainerM :=
  { name := "mod4",
    symbols := [⟨"caller4", .routineSym, .noTy, .localA, false⟩,
                ⟨"sub4", .routineSym, .noTy, .localA, false⟩],
    routines := [c4Caller, c4Callee] }

/-- A callee with a mid-body `Return` that does **not** open the body. -/
def c4bCallee : RoutineM :=
  { name := "sub4b",
    table := { symbols := [⟨"y", .dataSym, INTEGER_TYPE, .localA, false⟩],
               argList := [] },
    body := [.assign (.ref "y") (.lit "1" INTEGER_TYPE), .ret,
             .assign (.ref "y") (.lit "2" INTEGER_TYPE)],
    returnSymbol := none }

/-- A caller of `sub4b`. -/
def c4bCaller : RoutineM :=
  { name := "caller4b",
    table := { symbols := [], argList := [] },
    body := [.callStmt "sub4b" [] []],
    returnSymbol := none }

/-- The module of the mid-body-`Return` example. -/
def c4bContainer : ContainerM :=
  { name := "mod4b",
    symbols := [⟨"caller4b", .routineSym, .noTy, .localA, false⟩,
                ⟨"sub4b", .routineSym, .noTy, .localA, false⟩],
    routines := [c4bCaller, c4bCallee] }

/-- A task state whose parent loop over `i` has step `1`. -/
def c2StateStep1 : TaskState :=
  { parentLoopVars := ["i"],
    parentLoops := [⟨"i", .lit "1" INTEGER_TYPE⟩],
    proxyLoopVars := [],
    childLoopVars := [],
    parallelPrivate := ["i"] }

/-- A task state whose parent loop over `i` has step `2`. -/
def c2StateStep2 : TaskState :=
  { parentLoopVars := ["i"],
    parentLoops := [⟨"i", .lit "2" INTEGER_TYPE⟩],
    proxyLoopVars := [],
    childLoopVars := [],
    parallelPrivate := ["i"] }

/-- The index expression `i + 1`. -/
def c2IndexIPlus1 : PExpr :=
  .binop .add (.ref "i") (.lit "1" INTEGER_TYPE)

/-- A task state in which the shared variable `tmp` has been registered as
a proxy for the parent loop variable `i` of a step-32 loop (the registration
performed by `_evaluate_assignment` lines 1436-1464 carries no privacy
check on the assigned variable). -/
def c7ProxyState : TaskState :=
  { parentLoopVars := ["i"],
    parentLoops := [⟨"i", .lit "32" INTEGER_TYPE⟩],
    proxyLoopVars :=
      [("tmp", ⟨"i", [.binop .add (.ref "i") (.lit "1" INTEGER_TYPE)],
                ⟨"i", .lit "32" INTEGER_TYPE⟩⟩)],
    childLoopVars := [],
    parallelPrivate := ["i"] }

/-- A task state with one private loop variable `i` and nothing else (the
variable `shared_var` is not private there). -/
def c7PlainState : TaskState :=
  { parentLoopVars := ["i"],
    parentLoops := [⟨"i", .lit "1" INTEGER_TYPE⟩],
    proxyLoopVars := [],
    childLoopVars := [],
    parallelPrivate := ["i"] }

end PsyIR

namespace PsyIR

/-! ## The verified properties -/

/-- C1: After `InlineTrans.apply` on the Call in a caller containing
`a(i) = 1.0; call sub(a(i))`, where the callee is
`subroutine sub(x); x = 2.0*x; end`, the caller's statement sequence
becomes `a(i) = 1.0; a(i) = 2.0 * a(i)` and no Call node to that routine
remains anywhere in the caller's tree (the symbol table is also
untouched). -/
theorem C1_call_inlining_end_to_end :
    applyInline c1Container c1Caller 1 = .ok c1CallerAfter ∧
    c1CallerAfter.body =
      [.assign (.aref "a" [.ref "i"]) (.lit "1.0" REAL_TYPE),
       .assign (.aref "a" [.ref "i"])
         (.binop .mul (.lit "2.0" REAL_TYPE) (.aref "a" [.ref "i"]))] ∧
    hasCallToStmts "sub" c1CallerAfter.body = false ∧
    c1CallerAfter.table = c1Caller.table :=
  ⟨rfl, rfl, rfl, rfl⟩

/-- C6: Type equality is structural and value-based:
`ScalarType(REAL,8) == ScalarType(REAL,8)`;
`ScalarType(REAL,8) != ScalarType(REAL,4)`; and
`ArrayType(REAL_TYPE,[10]) == ArrayType(REAL_TYPE,[(1,10)])` because a
single integer extent is stored as a bounds pair with the default lower
bound `1` made explicit. -/
theorem C6_type_equality_structural :
    scalarType_new .REAL (.int 8) = .ok (.scalarTy .REAL (.val 8)) ∧
    scalarType_new .REAL (.int 4) = .ok (.scalarTy .REAL (.val 4)) ∧
    pyEqDataType (.scalarTy .REAL (.val 8)) (.scalarTy .REAL (.val 8)) =
      true ∧
    pyEqDataType (.scalarTy .REAL (.val 8)) (.scalarTy .REAL (.val 4)) =
      false ∧
    arrayType_new (.dt REAL_TYPE) [.int 10] = .ok c6ArrayTen ∧
    arrayType_new (.dt REAL_TYPE) [.pair2 (.int 1) (.int 10)] =
      .ok c6ArrayTen ∧
    pyEqDataType c6ArrayTen c6ArrayTen = true :=
  ⟨rfl, rfl, rfl, rfl, rfl, rfl, rfl⟩

/-- C8 counterexample: the claim says a non-positive integer byte count and
a non-integer precision symbol fail with `TypeError`; in the code
(datatypes.py lines 265-277) both raise `ValueError`, as shown at the
concrete inputs `ScalarType(REAL, 0)` and `ScalarType(REAL, sym)` with
`sym` of real scalar type. -/
theorem C8_counterexample :
    scalarType_new .REAL (.int 0) =
      .error (.valueError
        ("The precision of a DataSymbol when specified as an integer " ++
         "number of bytes must be > 0 but found '0'.")) ∧
    raisesTypeError (scalarType_new .REAL (.int 0)) = false ∧
    raisesValueError (scalarType_new .REAL (.int 0)) = true ∧
    raisesTypeError (scalarType_new .REAL (.symbol ⟨"p", REAL_TYPE⟩)) =
      false ∧
    raisesValueError (scalarType_new .REAL (.symbol ⟨"p", REAL_TYPE⟩)) =
      true :=
  ⟨rfl, rfl, rfl, rfl, rfl⟩

/-- C8 (amended): a `ScalarType` construction whose precision argument is
invalid fails — with `TypeError` when the argument is of a wrong Python
type, and with `ValueError` when it is a non-positive integer byte count
or a symbol whose own type is neither an integer scalar nor deferred;
enum members, positive byte counts and integer-scalar/deferred symbols
succeed. -/
theorem C8_scalar_precision_validation (intr : Intrinsic) :
    (∀ t, raisesTypeError (scalarType_new intr (.badType t)) = true) ∧
    (∀ n, n ≤ 0 → raisesValueError (scalarType_new intr (.int n)) = true) ∧
    (∀ n, 0 < n →
      scalarType_new intr (.int n) = .ok (.scalarTy intr (.val n))) ∧
    (∀ p, scalarType_new intr (.enum p) = .ok (.scalarTy intr (.enum p))) ∧
    (∀ s : DataSymbolM,
      (match s.datatype with
       | .scalarTy .INTEGER _ =>
           scalarType_new intr (.symbol s) =
             .ok (.scalarTy intr (.sym s.name))
       | .deferredTy =>
           scalarType_new intr (.symbol s) =
             .ok (.scalarTy intr (.sym s.name))
       | _ => raisesValueError (scalarType_new intr (.symbol s)) = true)) := by
  refine ⟨fun t => rfl, ?_, ?_, fun p => rfl, ?_⟩
  · intro n hn
    simp only [scalarType_new]
    rw [if_pos hn]
    rfl
  · intro n hn
    simp only [scalarType_new]
    rw [if_neg (by omega)]
  · intro s
    unfold scalarType_new
    rcases s with ⟨nm, dt⟩
    cases dt with
    | scalarTy i p => cases i <;> rfl
    | deferredTy => rfl
    | noTy => rfl
    | unknownFortranTy d => rfl
    | structureTy cs => rfl
    | arrayTy e sh => rfl

/-- C8 witness: the amended precondition theorem applied at concrete
inputs (a wrong-typed argument, the byte counts `0` and `8`, the `SINGLE`
enumerator, and an integer-scalar precision symbol). -/
theorem C8_scalar_precision_validation_witness :
    raisesTypeError (scalarType_new .REAL (.badType "str")) = true ∧
    raisesValueError (scalarType_new .REAL (.int 0)) = true ∧
    scalarType_new .REAL (.int 8) = .ok (.scalarTy .REAL (.val 8)) ∧
    scalarType_new .REAL (.enum .SINGLE) =
      .ok (.scalarTy .REAL (.enum .SINGLE)) ∧
    scalarType_new .REAL (.symbol ⟨"k", INTEGER_TYPE⟩) =
      .ok (.scalarTy .REAL (.sym "k")) :=
  ⟨(C8_scalar_precision_validation .REAL).1 "str",
   (C8_scalar_precision_validation .REAL).2.1 0 (by omega),
   (C8_scalar_precision_validation .REAL).2.2.1 8 (by omega),
   (C8_scalar_precision_validation .REAL).2.2.2.1 .SINGLE,
   (C8_scalar_precision_validation .REAL).2.2.2.2 ⟨"k", INTEGER_TYPE⟩⟩

/-- C4 counterexample: the resolved callee `sub4` has the body
`[Return, Assignment]` — a `Return` that is not the final statement — yet
`validate()` succeeds, because a body whose *first* statement is a `Return`
is treated as an empty routine (inline_trans.py lines 519-521) before the
`Return` checks run. -/
theorem C4_counterexample :
    c4Caller.body.get? 0 = some (.callStmt "sub4" [] []) ∧
    findRoutine c4Container c4Caller "sub4" = .ok c4Callee ∧
    countReturnsStmts c4Callee.body = 1 ∧
    lastIsReturn c4Callee.body = false ∧
    validateInline c4Container c4Caller 0 = .ok () :=
  ⟨rfl, rfl, rfl, rfl, rfl⟩

/-- C7 counterexample: in the state in which the shared variable `tmp`
(not in the parallel region's private/firstprivate set) has been registered
as a proxy loop variable, `_handle_index_binop` on the index `tmp + 1`
takes the proxy branch (checked before the shared-variable check,
dynamic_omp_task_directive.py lines 452-476) and completes without raising
any error. -/
theorem C7_counterexample :
    c7ProxyState.parallelPrivate.contains "tmp" = false ∧
    (c7ProxyState.proxyOf "tmp").isSome = true ∧
    exceptOk (handleIndexBinop c7ProxyState
      (.binop .add (.ref "tmp") (.lit "1" INTEGER_TYPE))
      (.aref "arr" [.binop .add (.ref "tmp") (.lit "1" INTEGER_TYPE)])
      [] [] []) = true :=
  ⟨rfl, rfl, rfl⟩

/-- C9: when conversion of a module's parse tree to PSyIR fails with one of
the recoverable exception classes, `get_psyir` substitutes the dummy
`FileContainer` holding an empty `invalid-module` container instead of
propagating the error, so a subsequent `get_symbol` lookup for any name
returns the absent value `None` rather than raising. -/
theorem C9_placeholder_module_on_failure (mi : ModuleInfoM) (e : PyErr)
    (name : String) (hcache : mi.psyirCache = none)
    (hcaught : caughtByGetPsyir e = true) :
    get_psyir mi (.error e) =
      .ok (dummyFileContainer mi.filename,
           { mi with psyirCache := some (dummyFileContainer mi.filename) }) ∧
    get_symbol mi (.error e) name =
      .ok (none,
           { mi with psyirCache := some (dummyFileContainer mi.filename) }) := by
  have hp : get_psyir mi (.error e) =
      .ok (dummyFileContainer mi.filename,
           { mi with psyirCache := some (dummyFileContainer mi.filename) }) := by
    unfold get_psyir
    rw [hcache]
    simp [hcaught]
  refine ⟨hp, ?_⟩
  unfold get_symbol
  rw [hp]
  rfl

/-- C9 witness: the placeholder-substitution theorem applied to a fresh
`ModuleInfo` whose front-end conversion fails with a syntax error. -/
theorem C9_placeholder_module_on_failure_witness :
    get_symbol ⟨"mymod", "src/mymod.f90", none⟩
      (.error (.fortranSyntaxError "bad source")) "some_routine" =
      .ok (none,
           ⟨"mymod", "src/mymod.f90",
            some (dummyFileContainer "src/mymod.f90")⟩) :=
  (C9_placeholder_module_on_failure ⟨"mymod", "src/mymod.f90", none⟩
    (.fortranSyntaxError "bad source") "some_routine" rfl rfl).2

end PsyIR

namespace PsyIR

/-- Unfolding of `arrayType_new` at a real-scalar element: the element
checks pass and the result is governed by `validate_shape`. -/
theorem arrayType_new_dtReal (shape : List ShapeArg) :
    arrayType_new (.dt REAL_TYPE) shape =
      (validate_shape shape).bind
        (fun _ => .ok (.arrayTy (.dt REAL_TYPE)
          (shape.map ShapeArg.toShapeDim))) := rfl

/-- A shape list with a `DEFERRED` entry and some other entry fails the
all-`DEFERRED` rule of `_validate_shape` (given the per-entry loop
passes). -/
theorem validate_shape_deferred_mix (shape : List ShapeArg)
    (hok : validateShapeEntries shape = .ok ())
    (hany : shape.any ShapeArg.isDeferred = true)
    (hall : shape.all ShapeArg.isDeferred = false) :
    validate_shape shape =
      .error (.typeError
        ("A declaration of an allocatable array must have the extent of " ++
         "every dimension as 'DEFERRED' but found shape: " ++
         shapeArgsText shape ++ ".")) := by
  unfold validate_shape
  rw [hok]
  show (if _ then _ else _) = _
  rw [if_pos ⟨hany, by simp [hall]⟩]

/-- A fully specified entry is never admissible in an assumed-shape list. -/
theorem not_all_attributeOk (shape : List ShapeArg)
    (h : shape.any ShapeArg.fullySpecified = true) :
    shape.all ShapeArg.attributeOk = false := by
  rw [List.any_eq_true] at h
  obtain ⟨d, hd, hfs⟩ := h
  rw [← Bool.not_eq_true, List.all_eq_true]
  intro hall
  have := hall d hd
  cases d with
  | int n => simp [ShapeArg.attributeOk] at this
  | node e => simp [ShapeArg.attributeOk] at this
  | extentA e => simp [ShapeArg.fullySpecified] at hfs
  | pair2 lo hi =>
      cases hi with
      | int n => simp [ShapeArg.attributeOk] at this
      | node e => simp [ShapeArg.attributeOk] at this
      | extentA e => simp [ShapeArg.fullySpecified] at hfs
      | badType t => simp [ShapeArg.fullySpecified] at hfs
  | tupleN n => simp [ShapeArg.fullySpecified] at hfs
  | badType t => simp [ShapeArg.fullySpecified] at hfs

/-- A shape list mixing an `ATTRIBUTE` entry with a fully specified entry
fails `_validate_shape` with a `TypeError` (given the per-entry loop
passes): either the allocatable rule fires first, or the assumed-shape
rule does. -/
theorem validate_shape_attribute_mix (shape : List ShapeArg)
    (hok : validateShapeEntries shape = .ok ())
    (hany : shape.any ShapeArg.isAttribute = true)
    (hfs : shape.any ShapeArg.fullySpecified = true) :
    raisesTypeError (validate_shape shape) = true := by
  unfold validate_shape
  rw [hok]
  show raisesTypeError (if _ then _ else _) = true
  by_cases h1 : (shape.any ShapeArg.isDeferred = true ∧
      ¬ shape.all ShapeArg.isDeferred = true)
  · rw [if_pos h1]
    rfl
  · rw [if_neg h1]
    rw [if_pos ⟨hany, by simp [not_all_attributeOk shape hfs]⟩]
    rfl

/-- C5: `ArrayType` construction enforces the all-or-none shape rule: a
shape list mixing `DEFERRED` with any other kind of entry fails with
`TypeError`, a shape list mixing `ATTRIBUTE` with a fully specified
dimension fails with `TypeError`, while all-`DEFERRED` and all-`ATTRIBUTE`
shapes succeed — in particular `ArrayType(t, [DEFERRED, (1,5)])` and
`ArrayType(t, [ATTRIBUTE, (1,5)])` fail while
`ArrayType(t, [DEFERRED, DEFERRED])` and
`ArrayType(t, [ATTRIBUTE, ATTRIBUTE])` succeed. -/
theorem C5_array_shape_exclusivity :
    (∀ shape : List ShapeArg, validateShapeEntries shape = .ok () →
      shape.any ShapeArg.isDeferred = true →
      shape.all ShapeArg.isDeferred = false →
      raisesTypeError (arrayType_new (.dt REAL_TYPE) shape) = true) ∧
    (∀ shape : List ShapeArg, validateShapeEntries shape = .ok () →
      shape.any ShapeArg.isAttribute = true →
      shape.any ShapeArg.fullySpecified = true →
      raisesTypeError (arrayType_new (.dt REAL_TYPE) shape) = true) ∧
    raisesTypeError (arrayType_new (.dt REAL_TYPE)
      [.extentA .DEFERRED, .pair2 (.int 1) (.int 5)]) = true ∧
    exceptOk (arrayType_new (.dt REAL_TYPE)
      [.extentA .DEFERRED, .extentA .DEFERRED]) = true ∧
    raisesTypeError (arrayType_new (.dt REAL_TYPE)
      [.extentA .ATTRIBUTE, .pair2 (.int 1) (.int 5)]) = true ∧
    exceptOk (arrayType_new (.dt REAL_TYPE)
      [.extentA .ATTRIBUTE, .extentA .ATTRIBUTE]) = true := by
  refine ⟨?_, ?_, rfl, rfl, rfl, rfl⟩
  · intro shape hok hany hall
    rw [arrayType_new_dtReal,
        validate_shape_deferred_mix shape hok hany hall]
    rfl
  · intro shape hok hany hfs
    rw [arrayType_new_dtReal]
    have h := validate_shape_attribute_mix shape hok hany hfs
    revert h
    cases validate_shape shape with
    | ok u => intro h; cases u; exact absurd h (by simp [raisesTypeError])
    | error e =>
        intro h
        cases e <;> simp_all [raisesTypeError, Except.bind]

/-- C5 witness: the exclusivity theorem applied at the mixed shapes
`[DEFERRED, 3]` and `[ATTRIBUTE, 3]`. -/
theorem C5_array_shape_exclusivity_witness :
    raisesTypeError (arrayType_new (.dt REAL_TYPE)
      [.extentA .DEFERRED, .int 3]) = true ∧
    raisesTypeError (arrayType_new (.dt REAL_TYPE)
      [.extentA .ATTRIBUTE, .int 3]) = true :=
  ⟨C5_array_shape_exclusivity.1 [.extentA .DEFERRED, .int 3] rfl rfl rfl,
   C5_array_shape_exclusivity.2.1 [.extentA .ATTRIBUTE, .int 3] rfl rfl rfl⟩

end PsyIR

namespace PsyIR

/-- Reduction of an `Except` bind at a success value. -/
theorem except_bind_ok {ε α β : Type} (a : α) (f : α → Except ε β) :
    ((Except.ok a : Except ε α) >>= f) = f a := rfl

/-- Reduction of an `Except` bind at an error value. -/
theorem except_bind_error {ε α β : Type} (e : ε) (f : α → Except ε β) :
    ((Except.error e : Except ε α) >>= f) = .error e := rfl

/-- C10: if the resolved callee's body is empty, or its first statement is
a `Return`, then `InlineTrans.apply` only detaches the `Call`: the call
statement is removed from the caller's body and everything else — the
caller's symbol table included — is unchanged. -/
theorem C10_empty_callee_detaches_call (c : ContainerM) (caller : RoutineM)
    (idx : Nat) (name : String) (argNames : List (Option String))
    (args : List PExpr) (callee : RoutineM)
    (hget : caller.body.get? idx = some (.callStmt name argNames args))
    (hfind : findRoutine c caller name = .ok callee)
    (hempty : callee.body = [] ∨ headIsReturn callee.body = true) :
    applyInline c caller idx =
      .ok { caller with body := caller.body.eraseIdx idx } := by
  have hcond : (callee.body.isEmpty = true ∨ headIsReturn callee.body = true) := by
    rcases hempty with h | h
    · exact Or.inl (by simp [h])
    · exact Or.inr h
  have hval : validateInline c caller idx = .ok () := by
    unfold validateInline
    rw [hget]
    dsimp only
    rw [hfind, except_bind_ok]
    rw [if_pos hcond]
    rfl
  unfold applyInline
  rw [hval, except_bind_ok, hget]
  dsimp only
  rw [hfind, except_bind_ok]
  rw [if_pos hcond]
  rfl

/-- C10 witness: applying the detach theorem to the caller of the
`[Return, Assignment]`-bodied routine `sub4` removes exactly the call. -/
theorem C10_empty_callee_detaches_call_witness :
    applyInline c4Container c4Caller 0 =
      .ok { c4Caller with body := [] } :=
  C10_empty_callee_detaches_call c4Container c4Caller 0 "sub4" [] []
    c4Callee rfl rfl (Or.inr rfl)

end PsyIR

namespace PsyIR

/-- C4 (amended): for a `Call` whose resolved callee body contains a
`Return` that is not the callee's final statement, or more than one
`Return`, `InlineTrans.validate` fails with a `TransformationError` —
unless the body's *first* statement is itself a `Return`, in which case
the routine is treated as empty and `validate()` succeeds without error
(inline_trans.py lines 519-531). -/
theorem C4_return_precondition (c : ContainerM) (caller : RoutineM)
    (idx : Nat) (name : String) (argNames : List (Option String))
    (args : List PExpr) (callee : RoutineM)
    (hget : caller.body.get? idx = some (.callStmt name argNames args))
    (hfind : findRoutine c caller name = .ok callee)
    (hne : callee.body.isEmpty = false)
    (hhd : headIsReturn callee.body = false)
    (hnret : countReturnsStmts callee.body ≠ 0)
    (hbad : countReturnsStmts callee.body > 1 ∨
            lastIsReturn callee.body = false) :
    validateInline c caller idx =
      .error (.transformationError
        ("Routine '" ++ name ++ "' contains one or more Return statements " ++
         "and therefore cannot be inlined.")) := by
  have hcond : ¬ (callee.body.isEmpty = true ∨
      headIsReturn callee.body = true) := by
    simp [hne, hhd]
  have herr : checkReturns name callee.body =
      .error (.transformationError
        ("Routine '" ++ name ++ "' contains one or more Return statements " ++
         "and therefore cannot be inlined.")) := by
    unfold checkReturns
    dsimp only
    rw [if_pos ⟨hnret, by
      rcases hbad with h | h
      · exact Or.inl h
      · exact Or.inr (by simp [h])⟩]
  unfold validateInline
  rw [hget]
  dsimp only
  rw [hfind, except_bind_ok]
  rw [if_neg hcond]
  rw [herr, except_bind_error]

/-- C4 witness: the amended precondition theorem applied to the routine
`sub4b`, whose body is `[Assignment, Return, Assignment]` (a mid-body
`Return`). -/
theorem C4_return_precondition_witness :
    validateInline c4bContainer c4bCaller 0 =
      .error (.transformationError
        ("Routine '" ++ "sub4b" ++ "' contains one or more Return " ++
         "statements and therefore cannot be inlined.")) :=
  C4_return_precondition c4bContainer c4bCaller 0 "sub4b" [] [] c4bCallee
    rfl rfl rfl rfl (by decide) (Or.inr rfl)

/-- C3: when an array dummy argument's declared rank differs from the rank
of the corresponding actual `Reference` argument at the call site (and the
preceding preconditions hold, the mismatching pair being the first one
checked), `InlineTrans.validate` raises a `TransformationError` whose
message names both ranks, and `apply` fails with the same error before any
mutation, leaving the tree unchanged. -/
theorem C3_reshaping_rejected (c : ContainerM) (caller : RoutineM)
    (idx : Nat) (name : String) (argNames : List (Option String))
    (args : List PExpr) (callee : RoutineM) (dummyName : String)
    (actual : PExpr) (rest : List (String × PExpr))
    (hget : caller.body.get? idx = some (.callStmt name argNames args))
    (hfind : findRoutine c caller name = .ok callee)
    (hne : callee.body.isEmpty = false)
    (hhd : headIsReturn callee.body = false)
    (hret : checkReturns name callee.body = .ok ())
    (hcb : checkCodeBlocks name callee.body = .ok ())
    (hna : checkNamedArgs callee.name argNames = .ok ())
    (hic : checkImportClashes caller.table callee = .ok ())
    (hrr : checkRefResolution c callee = .ok ())
    (hzip : callee.table.argList.zip args = (dummyName, actual) :: rest)
    (his : actual.isReference = true)
    (hranks : rankOfDatatype ((callee.table.find dummyName).map
                (fun s => s.datatype)) ≠
              rankOfDatatype (refDatatype c caller actual)) :
    validateInline c caller idx =
      .error (.transformationError
        (rankErrMsg callee.name (debugString actual) dummyName
          (rankOfDatatype (refDatatype c caller actual))
          (rankOfDatatype ((callee.table.find dummyName).map
            (fun s => s.datatype))))) ∧
    applyInline c caller idx =
      .error (.transformationError
        (rankErrMsg callee.name (debugString actual) dummyName
          (rankOfDatatype (refDatatype c caller actual))
          (rankOfDatatype ((callee.table.find dummyName).map
            (fun s => s.datatype))))) := by
  have hcond : ¬ (callee.body.isEmpty = true ∨
      headIsReturn callee.body = true) := by
    simp [hne, hhd]
  have hrank : checkArgRanks c caller callee args =
      .error (.transformationError
        (rankErrMsg callee.name (debugString actual) dummyName
          (rankOfDatatype (refDatatype c caller actual))
          (rankOfDatatype ((callee.table.find dummyName).map
            (fun s => s.datatype))))) := by
    unfold checkArgRanks
    rw [hzip]
    unfold argRankLoop
    rw [if_neg (by simp [his])]
    dsimp only
    rw [if_pos hranks]
  have hval : validateInline c caller idx =
      .error (.transformationError
        (rankErrMsg callee.name (debugString actual) dummyName
          (rankOfDatatype (refDatatype c caller actual))
          (rankOfDatatype ((callee.table.find dummyName).map
            (fun s => s.datatype))))) := by
    unfold validateInline
    rw [hget]
    dsimp only
    rw [hfind, except_bind_ok]
    rw [if_neg hcond]
    rw [hret, except_bind_ok, hcb, except_bind_ok, hna, except_bind_ok,
        hic, except_bind_ok, hrr, except_bind_ok]
    exact hrank
  refine ⟨hval, ?_⟩
  unfold applyInline
  rw [hval, except_bind_error]

/-- C3 witness: the reshaping theorem applied to `call sub2(b)` where the
dummy `m` has rank 2 and the actual `b` has rank 1; the error message
names both ranks. -/
theorem C3_reshaping_rejected_witness :
    validateInline c3Container c3Caller 0 =
      .error (.transformationError
        ("Cannot inline routine 'sub2' because it reshapes an argument: " ++
         "actual argument 'b' has rank 1 but the corresponding dummy " ++
         "argument, 'm', has rank 2")) :=
  ((C3_reshaping_rejected c3Container c3Caller 0 "sub2" [none] [.ref "b"]
      c3Callee "m" (.ref "b") [] rfl rfl rfl rfl rfl rfl rfl rfl rfl rfl rfl
      (by decide)).1).trans (by rfl)

end PsyIR

namespace PsyIR

/-- C2: for an array index of the restricted form `loop-variable OP
integer-literal` (OP one of ADD/SUB) inside a task region, where the
variable is that of an enclosing (parent) loop with literal integer step
`S` and the literal has value `L`, `_handle_index_binop` computes
`divisor = ceil(L / S)` and `modulo = L mod S` and feeds them to
`_create_binops_from_step_and_divisors`, appending exactly one dependency
expression to the index list when `modulo = 0` and exactly two (covering
the `divisor*S` and `(divisor-1)*S` chunk offsets) when `modulo ≠ 0`. -/
theorem C2_index_binop_decomposition (st : TaskState) (op : BinOpK)
    (v lStr sStr : String) (dt dtL : DataType) (containing : PExpr)
    (indexList : List IndexEntry) (fpList privList : List PExpr)
    (L S : Int) (pl : LoopInfoM)
    (hop : op = .add ∨ op = .sub)
    (hnoproxy : st.proxyOf v = none)
    (hpriv : st.parallelPrivate.contains v = true)
    (hnotpl : pyMem (.ref v) privList = false)
    (hparent : st.parentLoopVars.contains v = true)
    (hloop : (st.parentLoopVars.indexOf? v).bind
               (fun i => st.parentLoops.get? i) = some pl)
    (hstep : pl.stepExpr = .lit sStr dtL)
    (hS : parsePyInt sStr = some S)
    (hL : parsePyInt lStr = some L) :
    (handleIndexBinop st (.binop op (.ref v) (.lit lStr dt)) containing
        indexList fpList privList =
      .ok (appendBinops indexList
             (createBinopsFromStepAndDivisors op (.ref v) S (pyCeilDiv L S)
               (pyMod L S) true),
           if ¬ pyMem (.ref v) fpList then fpList ++ [.ref v]
           else fpList)) ∧
    ((appendBinops indexList
        (createBinopsFromStepAndDivisors op (.ref v) S (pyCeilDiv L S)
          (pyMod L S) true)).map IndexEntry.exprCount =
      indexList.map IndexEntry.exprCount ++
        [if pyMod L S = 0 then 1 else 2]) := by
  constructor
  · have hrefpriv : isReferencePrivate st (.ref v) = true := hpriv
    have hparent' : v ∈ st.parentLoopVars := by
      simpa using hparent
    have hloop' : ((List.indexOf? v st.parentLoopVars).bind
        fun i => st.parentLoops[i]?) = some pl := by
      simpa using hloop
    rcases hop with rfl | rfl <;>
      (simp [handleIndexBinop, PExpr.isReference, PExpr.isLiteral,
         PExpr.symbolName, Option.getD, hnoproxy, hrefpriv, hnotpl, hparent',
         litIntValue, hS, hL]
       rw [hloop']
       simp [hstep, hS]
       rfl)
  · unfold appendBinops createBinopsFromStepAndDivisors
    dsimp only
    by_cases hm : pyMod L S = 0
    · rw [if_pos hm]
      simp [hm, IndexEntry.exprCount]
    · rw [if_neg hm]
      simp only [if_neg hm]
      simp [hm, IndexEntry.exprCount]

end PsyIR

namespace PsyIR

/-- C2 witness: the decomposition theorem at step 1, index `i+1`
(`1 % 1 = 0`: one expression) and at step 2, index `i+1` (`1 % 2 ≠ 0`: two
expressions, `i+2` and `i`). -/
theorem C2_index_binop_decomposition_witness :
    handleIndexBinop c2StateStep1 c2IndexIPlus1 (.aref "arr" [c2IndexIPlus1])
        [] [] [] =
      .ok ([.single (.binop .add (.ref "i") (.lit "1" INTEGER_TYPE))],
           [.ref "i"]) ∧
    handleIndexBinop c2StateStep2 c2IndexIPlus1 (.aref "arr" [c2IndexIPlus1])
        [] [] [] =
      .ok ([.multi [.binop .add (.ref "i") (.lit "2" INTEGER_TYPE),
                    .ref "i"]],
           [.ref "i"]) := by
  constructor
  · exact ((C2_index_binop_decomposition c2StateStep1 .add "i" "1" "1"
      INTEGER_TYPE INTEGER_TYPE (.aref "arr" [c2IndexIPlus1]) [] [] [] 1 1
      ⟨"i", .lit "1" INTEGER_TYPE⟩ (Or.inl rfl) rfl rfl rfl rfl rfl rfl rfl
      rfl).1).trans (by rfl)
  · exact ((C2_index_binop_decomposition c2StateStep2 .add "i" "1" "2"
      INTEGER_TYPE INTEGER_TYPE (.aref "arr" [c2IndexIPlus1]) [] [] [] 1 2
      ⟨"i", .lit "2" INTEGER_TYPE⟩ (Or.inl rfl) rfl rfl rfl rfl rfl rfl rfl
      rfl).1).trans (by rfl)

end PsyIR

namespace PsyIR

/-- C7 (amended): inside a task region, an array-index expression referring
to a variable that is neither private nor firstprivate to the enclosing
parallel scope raises a `GenerationError` naming the variable — for a
binary-operation index, provided the variable is not registered as a proxy
loop variable (a shared proxy variable is instead rewritten in terms of the
parent loop variable without error, the proxy branch being checked first);
a plain shared `Reference` index always raises. -/
theorem C7_shared_index_rejection :
    (∀ (st : TaskState) (op : BinOpK) (c0 c1 containing : PExpr)
       (il : List IndexEntry) (fp pl : List PExpr),
      (op = .add ∨ op = .sub) →
      ((c0.isReference = true ∧ c1.isLiteral = true) ∨
       (c0.isLiteral = true ∧ c1.isReference = true)) →
      st.proxyOf
        (((if c0.isReference = true then c0 else c1).symbolName).getD "") =
        none →
      isReferencePrivate st (if c0.isReference = true then c0 else c1) =
        false →
      handleIndexBinop st (.binop op c0 c1) containing il fp pl =
        .error (.generationError
          ("Shared variable '" ++
           debugString (if c0.isReference = true then c0 else c1) ++
           "' used as an " ++
           "array index inside an OMPTaskDirective which is not " ++
           "supported. The full access is '" ++
           debugString (.binop op c0 c1) ++ "'."))) ∧
    (∀ (st : TaskState) (arrRef : PExpr) (n : String) (rest : List PExpr)
       (dim : Nat) (il : List IndexEntry) (fp pl : List PExpr),
      st.parallelPrivate.contains n = false →
      evalReadonlyIndices st arrRef (.ref n :: rest) dim il fp pl =
        .error (.generationError
          ("Shared variable access used as an array index inside an " ++
           "OMPTaskDirective which is not supported. Variable name is '" ++
           pyStrRef (.ref n) ++ "'."))) := by
  constructor
  · intro st op c0 c1 containing il fp pl hop hshape hproxy hshared
    simp only [handleIndexBinop]
    rw [if_neg (by rcases hop with rfl | rfl <;> simp)]
    rw [if_neg (not_not_intro hshape)]
    rw [hproxy]
    simp [hshared]
    rfl
  · intro st arrRef n rest dim il fp pl hshared
    have h : isReferencePrivate st (.ref n) = false := hshared
    simp only [evalReadonlyIndices]
    rw [h]
    simp only [Bool.false_eq_true, if_false]
    rfl

/-- C7 witness: the amended rejection theorem at the binary-operation index
`shared_var + 1` and at the plain index `shared_var`, in a state where
`shared_var` is not private. -/
theorem C7_shared_index_rejection_witness :
    handleIndexBinop c7PlainState
      (.binop .add (.ref "shared_var") (.lit "1" INTEGER_TYPE))
      (.aref "a" [.binop .add (.ref "shared_var") (.lit "1" INTEGER_TYPE)])
      [] [] [] =
    .error (.generationError
      ("Shared variable 'shared_var' used as an array index inside an " ++
       "OMPTaskDirective which is not supported. The full access is " ++
       "'shared_var Operator.ADD 1'.")) ∧
    evalReadonlyIndices c7PlainState (.aref "a" [.ref "shared_var"])
      [.ref "shared_var"] 0 [] [] [] =
    .error (.generationError
      ("Shared variable access used as an array index inside an " ++
       "OMPTaskDirective which is not supported. Variable name is " ++
       "'Reference[name:'shared_var']'.")) :=
  ⟨(C7_shared_index_rejection.1 c7PlainState .add (.ref "shared_var")
      (.lit "1" INTEGER_TYPE)
      (.aref "a" [.binop .add (.ref "shared_var") (.lit "1" INTEGER_TYPE)])
      [] [] [] (Or.inl rfl) (Or.inl ⟨rfl, rfl⟩) rfl rfl).trans (by rfl),
   (C7_shared_index_rejection.2 c7PlainState (.aref "a" [.ref "shared_var"])
      "shared_var" [] 0 [] [] [] rfl).trans (by rfl)⟩

end PsyIR
